import Mathlib

/-! # Building energy digital twin dashboard: client-side orchestration

A shallow embedding of `src/Frontend/App.js` (the `DigitalTwin` component):
the state cells, the timestamp formatting, the five request controllers and
the bounded history buffer, followed by the properties proved about them.

Conventions of the embedding

* A state cell or a JSON field that may be `null` or `undefined` has type `JSOpt`.
* JSON numbers are rationals; a number in an arithmetic expression is a `JSNum`
  (`NaN`, an infinity or a finite rational), and an arithmetic operation is the
  exact operation followed by the rounding of the engine, `Runtime.roundNumber`.
* A `Date` is represented by the civil fields of its local time, or is invalid.
* Built-ins whose result depends on the engine or on the default locale
  (`new Date(string)`, `toLocaleTimeString([], ...)`, `localeCompare`, the
  rounding of numbers and `Number::toString`) are the fields of a `Runtime`,
  over which every definition is parametric.
* An asynchronous controller is a function of the state at the call and of the
  `Outcome` of its request; it returns the state after the completion has been
  processed. The event loop (`step`, `run`) processes the call and the
  completion of a controller as two events, which other events may separate.
-/

namespace DigitalTwin

/-! ## JavaScript values -/

/-- A JavaScript value of type `α` that may also be `null` or `undefined`. -/
inductive JSOpt (α : Type) where
  | null : JSOpt α
  | undefined : JSOpt α
  | val (a : α) : JSOpt α
  deriving DecidableEq, Repr

/-- The nullish coalescing operator `x ?? d` on a number. -/
def JSOpt.orDefault (x : JSOpt ℚ) (d : ℚ) : ℚ :=
  match x with
  | .val a => a
  | _ => d

/-- Truthiness of an optional string: `null`, `undefined` and `""` are falsy. -/
def JSOpt.truthyStr (x : JSOpt String) : Bool :=
  match x with
  | .val a => a != ""
  | _ => false

/-- Truthiness of an optional object: every object is truthy. -/
def JSOpt.truthyObj {α : Type} (x : JSOpt α) : Bool :=
  match x with
  | .val _ => true
  | _ => false

/-- The expression `x || d` for an optional string `x` and a string `d`. -/
def JSOpt.strOr (x : JSOpt String) (d : String) : String :=
  match x with
  | .val a => if a != "" then a else d
  | _ => d

/-! ## Dates and the wire format -/

/-- The civil fields of a valid date in the local time zone. -/
structure DateTime where
  year : Nat
  month : Nat
  day : Nat
  hour : Nat
  minute : Nat
  second : Nat
  deriving DecidableEq, Repr

/-- A JavaScript `Date`: an invalid date or a local civil time. -/
inductive Date where
  | invalid : Date
  | valid (t : DateTime) : Date
  deriving DecidableEq, Repr

/-- The decimal digit character of `d % 10`. -/
def digitChar (d : Nat) : Char := Char.ofNat (48 + d % 10)

/-- A number below 100 rendered with exactly two digits (`2-digit`). -/
def twoDigit (n : Nat) : String := String.mk [digitChar (n / 10), digitChar n]

/-- The hour of a 12-hour clock: 0 and 12 are both rendered as 12. -/
def hour12 (h : Nat) : Nat := if h % 12 = 0 then 12 else h % 12

/-- The day period of an hour. -/
def dayPeriod (h : Nat) : String := if h < 12 then "AM" else "PM"

/-- `formatTimestamp` (App.js 44-54): `date.toLocaleString('en-US', ...)` with
two-digit month, day, hour, minute and second, numeric year and a 12-hour
clock, which renders `MM/DD/YYYY, hh:mm:ss AM|PM`; an invalid date renders as
`Invalid Date`. -/
def formatTimestamp (date : Date) : String :=
  match date with
  | .invalid => "Invalid Date"
  | .valid t =>
    twoDigit t.month ++ "/" ++ twoDigit t.day ++ "/" ++ toString t.year ++ ", " ++
      twoDigit (hour12 t.hour) ++ ":" ++ twoDigit t.minute ++ ":" ++ twoDigit t.second ++
      " " ++ dayPeriod t.hour

/-- The built-ins of the JavaScript engine that the component calls and whose
result is fixed by the engine and its default locale, not by the source. -/
structure Runtime where
  /-- The constructor `new Date(string)`. -/
  parseDate : String → Date
  /-- The call `date.toLocaleTimeString([], { hour: '2-digit', minute: '2-digit' })`. -/
  toLocaleTimeString : Date → String
  /-- The call `a.localeCompare(b)`: negative, zero or positive. -/
  localeCompare : String → String → Int
  /-- The rounding of the exact result of an arithmetic operation, or of a
  decimal literal, to a number of the engine (IEEE 754 binary64). -/
  roundNumber : ℚ → ℚ
  /-- The conversion `Number::toString` of a finite number. -/
  numberToString : ℚ → String
  /-- The call `date.toLocaleString()` in the default locale. -/
  toLocaleString : Date → String

/-! ## Numbers -/

/-- A JavaScript number: `NaN`, an infinity, or a finite value. Negative zero
and overflow to an infinity are not represented. -/
inductive JSNum where
  | nan : JSNum
  | inf (negative : Bool) : JSNum
  | fin (q : ℚ) : JSNum
  deriving DecidableEq, Repr

/-- The conversion `ToNumber` of a numeric field: `undefined` is `NaN` and
`null` is zero. -/
def JSOpt.toNumber (x : JSOpt ℚ) : JSNum :=
  match x with
  | .val q => .fin q
  | .null => .fin 0
  | .undefined => .nan

/-- The expression `x || d` for a numeric field `x` and a number `d`: zero,
`null` and `undefined` are falsy. -/
def JSOpt.numOr (x : JSOpt ℚ) (d : ℚ) : ℚ :=
  match x with
  | .val q => if q.num = 0 then d else q
  | _ => d

/-- Truthiness of a numeric field. -/
def JSOpt.truthyNum (x : JSOpt ℚ) : Bool :=
  match x with
  | .val q => decide (q.num ≠ 0)
  | _ => false

/-- The product `a * b`. -/
def JSNum.mul (rt : Runtime) (a b : JSNum) : JSNum :=
  match a, b with
  | .nan, _ => .nan
  | _, .nan => .nan
  | .fin x, .fin y => .fin (rt.roundNumber (x * y))
  | .inf n, .inf m => .inf (n != m)
  | .inf n, .fin y => if y.num = 0 then .nan else .inf (n != decide (y.num < 0))
  | .fin x, .inf m => if x.num = 0 then .nan else .inf (m != decide (x.num < 0))

/-- The quotient `a / b`. -/
def JSNum.div (rt : Runtime) (a b : JSNum) : JSNum :=
  match a, b with
  | .nan, _ => .nan
  | _, .nan => .nan
  | .fin x, .fin y =>
    if y.num = 0 then (if x.num = 0 then .nan else .inf (decide (x.num < 0)))
    else .fin (rt.roundNumber (x / y))
  | .inf _, .inf _ => .nan
  | .inf n, .fin y => .inf (n != decide (y.num < 0))
  | .fin _, .inf _ => .fin 0

/-- The sum `a + b`. -/
def JSNum.add (rt : Runtime) (a b : JSNum) : JSNum :=
  match a, b with
  | .nan, _ => .nan
  | _, .nan => .nan
  | .fin x, .fin y => .fin (rt.roundNumber (x + y))
  | .inf n, .inf m => if n = m then .inf n else .nan
  | .inf n, .fin _ => .inf n
  | .fin _, .inf m => .inf m

/-- The call `Math.round(a)`: the nearest integer, a tie going up. -/
def JSNum.round (a : JSNum) : JSNum :=
  match a with
  | .fin q => .fin (((2 * q.num + q.den) / (2 * q.den) : Int) : ℚ)
  | other => other

/-- The conversion of a number to text, as in a template literal. -/
def JSNum.toText (rt : Runtime) (a : JSNum) : String :=
  match a with
  | .nan => "NaN"
  | .inf false => "Infinity"
  | .inf true => "-Infinity"
  | .fin q => rt.numberToString q

/-- The digits that `toFixed` produces for a finite value of magnitude below
`10 ^ 21`: the nearest multiple of `10 ^ (-digits)`, a tie going away from
zero, written with exactly `digits` decimals. -/
def fixedDigits (q : ℚ) (digits : Nat) : String :=
  let n : Nat := (2 * q.num.natAbs * 10 ^ digits + q.den) / (2 * q.den)
  let m : List Char := (toString n).data
  let padded : List Char := List.replicate (digits + 1 - m.length) '0' ++ m
  let k : Nat := padded.length - digits
  let body : String :=
    if digits = 0 then String.mk m
    else String.mk (padded.take k) ++ "." ++ String.mk (padded.drop k)
  if q.num < 0 then "-" ++ body else body

/-- The call `a.toFixed(digits)`. -/
def JSNum.toFixed (rt : Runtime) (a : JSNum) (digits : Nat) : String :=
  match a with
  | .fin q =>
    if q.num.natAbs < 10 ^ 21 * q.den then fixedDigits q digits
    else if q.num < 0 then "-" ++ rt.numberToString (-q) else rt.numberToString q
  | other => other.toText rt

/-! ## Data model -/

/-- The sensor snapshot returned by `/api/sensor/current`: a flat record whose
fields may each be absent. -/
structure SensorSnapshot where
  timestamp : JSOpt String := .undefined
  Indoor_Temp_C : JSOpt ℚ := .undefined
  OutsideWeather_Temp_C : JSOpt ℚ := .undefined
  Indoor_Humidity_Pct : JSOpt ℚ := .undefined
  OutsideWeather_Humidity_Pct : JSOpt ℚ := .undefined
  Total_Occupancy_Count : JSOpt ℚ := .undefined
  HVAC_Load_Estimate : JSOpt ℚ := .undefined
  Energy_Price_USD_kWh : JSOpt ℚ := .undefined
  Pressure_mmHg : JSOpt ℚ := .undefined
  Wind_Speed_m_s : JSOpt ℚ := .undefined
  Hour : JSOpt ℚ := .undefined
  Temp_Deviation : JSOpt ℚ := .undefined
  Solar_Irradiance_Estimate : JSOpt ℚ := .undefined
  Indoor_Temp_Deviation : JSOpt ℚ := .undefined
  Indoor_Humidity_Deviation : JSOpt ℚ := .undefined
  Humidity_Deviation : JSOpt ℚ := .undefined
  Temp_Occupancy_Interaction : JSOpt ℚ := .undefined
  Building_Area_m2 : JSOpt ℚ := .undefined
  Daylight_Hours_Factor : JSOpt ℚ := .undefined
  Lighting_Occupancy_Ratio : JSOpt ℚ := .undefined
  Plug_Peak_Hour : JSOpt ℚ := .undefined
  Device_Usage_Factor : JSOpt ℚ := .undefined
  Remote_Work_Factor : JSOpt ℚ := .undefined
  Price_Sensitivity : JSOpt ℚ := .undefined
  Day_of_Week : JSOpt ℚ := .undefined
  Is_Weekend : JSOpt ℚ := .undefined
  Is_Daytime : JSOpt ℚ := .undefined
  Season : JSOpt ℚ := .undefined
  Month : JSOpt ℚ := .undefined
  deriving DecidableEq, Repr

/-- One entry of the history buffer (App.js 72-78). -/
structure HistoricalEntry where
  time : String
  temp : ℚ
  humidity : ℚ
  occupancy : ℚ
  timestamp : JSOpt String
  deriving DecidableEq, Repr

/-- The prediction payload of `/api/predict`, in watt-hours. -/
structure PredictionResult where
  Energy_HVAC_Wh : JSOpt ℚ := .undefined
  Energy_Lighting_Wh : JSOpt ℚ := .undefined
  Energy_Plug_Wh : JSOpt ℚ := .undefined
  Energy_Other_Wh : JSOpt ℚ := .undefined
  Total_Energy_Wh : JSOpt ℚ := .undefined
  deriving DecidableEq, Repr

/-- The `inputs` object of a simulation result. -/
structure SimulationInputs where
  temp : ℚ
  occupancy : ℚ
  price : ℚ
  deriving DecidableEq, Repr

/-- The `outputs` object of a simulation result. -/
structure SimulationOutputs where
  hvac : ℚ
  lighting : ℚ
  plug : ℚ
  total : ℚ
  cost : ℚ
  deriving DecidableEq, Repr

/-- The payload of `/api/simulate`. -/
structure SimulationResult where
  scenario : String
  inputs : SimulationInputs
  outputs : SimulationOutputs
  deriving DecidableEq, Repr

/-- One ranked plan of `/api/optimize`. -/
structure OptimizationScenario where
  scenario : String
  icon : JSOpt String
  description : String
  monthly_kwh : ℚ
  monthly_cost_usd : ℚ
  savings_pct : ℚ
  savings_kwh : ℚ
  cost_savings_usd : ℚ
  deriving DecidableEq, Repr

/-- One row of the before/after contrast of an optimization run. -/
structure ModelComparisonRow where
  model : String
  before : ℚ
  after : ℚ
  deriving DecidableEq, Repr

/-- The `comparison` payload of `/api/optimize`. -/
structure ComparisonResult where
  modelComparison : List ModelComparisonRow
  deriving DecidableEq, Repr

/-! ## Responses -/

/-- The completion of a request: either the `await` threw (network failure,
body that is not JSON) or it produced the parsed response object. -/
inductive Outcome (ρ : Type) where
  | threw : Outcome ρ
  | resolved (result : ρ) : Outcome ρ
  deriving DecidableEq, Repr

/-- The response of `/api/sensor/current`. -/
structure SensorResponse where
  success : Bool
  data : JSOpt SensorSnapshot
  deriving DecidableEq, Repr

/-- The response of `/api/predict`. -/
structure PredictResponse where
  success : Bool
  predictions : JSOpt PredictionResult
  deriving DecidableEq, Repr

/-- The response of `/api/optimize`. -/
structure OptimizeResponse where
  success : Bool
  scenarios : JSOpt (List OptimizationScenario)
  comparison : JSOpt ComparisonResult
  deriving DecidableEq, Repr

/-- The response of `/api/simulate`. -/
structure SimulateResponse where
  success : Bool
  data : JSOpt SimulationResult
  deriving DecidableEq, Repr

/-- The response of `/api/comparison`: the flag and the remaining fields,
which the component stores without reading them. -/
structure ComparisonResponse where
  success : Bool
  fields : List (String × String)
  deriving DecidableEq, Repr

/-! ## Component state -/

/-- The thirteen `useState` cells of the component (App.js 24-36). -/
structure State where
  currentTime : Date
  sensorData : JSOpt SensorSnapshot
  predictions : JSOpt PredictionResult
  activeTab : String
  loading : Bool
  historicalData : List HistoricalEntry
  scenarios : JSOpt (List OptimizationScenario)
  selectedScenario : JSOpt OptimizationScenario
  simulationResult : JSOpt SimulationResult
  selectedTimestamp : JSOpt String
  comparisonData : JSOpt ComparisonResponse
  selectedSimulationScenario : JSOpt String
  optimizationComparison : JSOpt ComparisonResult
  deriving DecidableEq, Repr

/-- The initial values of the cells, for a clock that reads `now`. -/
def State.initial (now : Date) : State where
  currentTime := now
  sensorData := .null
  predictions := .null
  activeTab := "live"
  loading := false
  historicalData := []
  scenarios := .val []
  selectedScenario := .null
  simulationResult := .null
  selectedTimestamp := .null
  comparisonData := .null
  selectedSimulationScenario := .null
  optimizationComparison := .null

/-! ## History buffer (App.js 70-81) -/

/-- The call `xs.slice(-n)`: the last `n` elements, all of them when there
are fewer. -/
def sliceFromEnd {α : Type} (n : Nat) (xs : List α) : List α :=
  xs.drop (xs.length - n)

/-- The call `xs.sort(cmp)`: a stable sort (ECMAScript 2019), where `a` stays
in front of `b` when `cmp a b ≤ 0`. -/
def jsSort {α : Type} (cmp : α → α → Int) (xs : List α) : List α :=
  xs.insertionSort (fun a b => cmp a b ≤ 0)

/-- The object `newEntry` built by the updater (App.js 72-78). -/
def newEntry (timeStr : String) (data : SensorSnapshot) : HistoricalEntry where
  time := timeStr
  temp := data.Indoor_Temp_C.orDefault 0
  humidity := data.Indoor_Humidity_Pct.orDefault 0
  occupancy := data.Total_Occupancy_Count.orDefault 0
  timestamp := data.timestamp

/-- The updater passed to `setHistoricalData` (App.js 71-81). -/
def historyUpdater (localeCompare : String → String → Int) (timeStr : String)
    (data : SensorSnapshot) (prev : List HistoricalEntry) : List HistoricalEntry :=
  let filtered := prev.filter (fun item => item.time != timeStr)
  jsSort (fun a b => localeCompare a.time b.time)
    (sliceFromEnd 23 filtered ++ [newEntry timeStr data])

/-- The buffer after a sequence of history record steps, each given by the
label and the snapshot of one successful fetch, starting from the empty buffer. -/
def recordAll (localeCompare : String → String → Int)
    (steps : List (String × SensorSnapshot)) : List HistoricalEntry :=
  steps.foldl (fun prev step => historyUpdater localeCompare step.1 step.2 prev) []

/-- The label `timeStr` of a successful fetch (App.js 70): computed from the
echoed timestamp when it is truthy, from the captured clock otherwise. -/
def timeLabel (rt : Runtime) (currentTime : Date) (data : SensorSnapshot) : String :=
  match data.timestamp with
  | .val ts =>
    if ts != "" then rt.toLocaleTimeString (rt.parseDate ts)
    else rt.toLocaleTimeString currentTime
  | _ => rt.toLocaleTimeString currentTime

/-! ## Controllers (App.js 58-177) -/

/-- The timestamp resolved by `fetchSensorData` (App.js 61). -/
def resolveTimestamp (rt : Runtime) (s : State) (useCurrentTime : Bool) : String :=
  if useCurrentTime then formatTimestamp s.currentTime
  else
    match s.selectedTimestamp with
    | .val sel =>
      if sel != "" then formatTimestamp (rt.parseDate sel) else formatTimestamp s.currentTime
    | _ => formatTimestamp s.currentTime

/-- The success branch of `fetchSensorData` (App.js 65-81) followed by the
final `setLoading(false)`: reading `data.timestamp` throws when `data` is
`null` or `undefined`, after `setSensorData(data)` has been issued. -/
def applySensorData (rt : Runtime) (s : State) (data : JSOpt SensorSnapshot) : State :=
  match data with
  | .val d =>
    { s with
      sensorData := .val d
      selectedTimestamp := d.timestamp
      historicalData :=
        historyUpdater rt.localeCompare (timeLabel rt s.currentTime d) d s.historicalData
      loading := false }
  | .null => { s with sensorData := .null, loading := false }
  | .undefined => { s with sensorData := .undefined, loading := false }

/-- The function `fetchSensorData` (App.js 58-87): the busy flag is raised, the
request carries `resolveTimestamp rt s useCurrentTime`, and the completion is
applied; the busy flag is lowered on every path. -/
def fetchSensorData (rt : Runtime) (s : State) ( _useCurrentTime : Bool)
    (outcome : Outcome SensorResponse) : State :=
  let s1 := { s with loading := true }
  match outcome with
  | .threw => { s1 with loading := false }
  | .resolved result =>
    if result.success then applySensorData rt s1 result.data
    else { s1 with loading := false }

/-- The body of the request of `predictEnergy` (App.js 93-97):
`{...sensorData, timestamp}`; no request when there is no snapshot. -/
def predictRequest (s : State) : Option SensorSnapshot :=
  match s.sensorData with
  | .val d =>
    some { d with timestamp := .val (s.selectedTimestamp.strOr (formatTimestamp s.currentTime)) }
  | _ => none

/-- The function `predictEnergy` (App.js 89-107): it returns at once when there
is no snapshot. -/
def predictEnergy (s : State) (outcome : Outcome PredictResponse) : State :=
  if s.sensorData.truthyObj then
    let s1 := { s with loading := true }
    match outcome with
    | .threw => { s1 with loading := false }
    | .resolved result =>
      if result.success then { s1 with predictions := result.predictions, loading := false }
      else { s1 with loading := false }
  else s

/-- The body of the request of `runOptimization` (App.js 116-120). -/
structure OptimizeRequest where
  snapshot : SensorSnapshot
  timestamp : String
  simulationScenario : JSOpt String
  deriving DecidableEq, Repr

/-- The request of `runOptimization`; none when there is no snapshot. -/
def optimizeRequest (s : State) : Option OptimizeRequest :=
  match s.sensorData with
  | .val d =>
    some
      { snapshot := d
        timestamp := s.selectedTimestamp.strOr (formatTimestamp s.currentTime)
        simulationScenario := s.selectedSimulationScenario }
  | _ => none

/-- The expression `xs[0]`: `undefined` on an empty array. -/
def firstElem {α : Type} (xs : List α) : JSOpt α :=
  match xs with
  | [] => .undefined
  | x :: _ => .val x

/-- The success branch of `runOptimization` (App.js 124-128) followed by the
final `setLoading(false)`: `result.scenarios[0]` throws when `scenarios` is
`null` or `undefined`, after `setScenarios` has been issued. -/
def applyOptimization (s : State) (result : OptimizeResponse) : State :=
  match result.scenarios with
  | .val xs =>
    { s with
      scenarios := .val xs
      selectedScenario := firstElem xs
      optimizationComparison :=
        if result.comparison.truthyObj then result.comparison else s.optimizationComparison
      loading := false }
  | .null => { s with scenarios := .null, loading := false }
  | .undefined => { s with scenarios := .undefined, loading := false }

/-- The function `runOptimization` (App.js 109-134): it returns at once when
there is no snapshot. -/
def runOptimization (s : State) (outcome : Outcome OptimizeResponse) : State :=
  if s.sensorData.truthyObj then
    let s1 := { s with loading := true }
    match outcome with
    | .threw => { s1 with loading := false }
    | .resolved result =>
      if result.success then applyOptimization s1 result else { s1 with loading := false }
  else s

/-- The body of the request of `runSimulation` (App.js 143-146). -/
structure SimulateRequest where
  scenario : String
  timestamp : String
  deriving DecidableEq, Repr

/-- The request of `runSimulation`. -/
def simulateRequest (s : State) (scenarioKey : String) : SimulateRequest where
  scenario := scenarioKey
  timestamp := s.selectedTimestamp.strOr (formatTimestamp s.currentTime)

/-- The function `runSimulation` (App.js 136-156): the active scenario is set
before the request is issued. -/
def runSimulation (s : State) (scenarioKey : String)
    (outcome : Outcome SimulateResponse) : State :=
  let s1 := { s with loading := true, selectedSimulationScenario := .val scenarioKey }
  match outcome with
  | .threw => { s1 with loading := false }
  | .resolved result =>
    if result.success then { s1 with simulationResult := result.data, loading := false }
    else { s1 with loading := false }

/-- The body of the request of `compareScenarios` (App.js 164-167). -/
structure CompareRequest where
  scenarios : List String
  timestamp : String
  deriving DecidableEq, Repr

/-- The request of `compareScenarios`. -/
def compareRequest (s : State) (scenarioKeys : List String) : CompareRequest where
  scenarios := scenarioKeys
  timestamp := s.selectedTimestamp.strOr (formatTimestamp s.currentTime)

/-- The function `compareScenarios` (App.js 158-177): the whole response
object is stored. -/
def compareScenarios (s : State) ( _scenarioKeys : List String)
    (outcome : Outcome ComparisonResponse) : State :=
  let s1 := { s with loading := true }
  match outcome with
  | .threw => { s1 with loading := false }
  | .resolved result =>
    if result.success then { s1 with comparisonData := .val result, loading := false }
    else { s1 with loading := false }

/-! ## Local actions and issued requests -/

/-- The click handler of a plan of the list (App.js 821): `setSelectedScenario(s)`. -/
def selectScenario (s : State) (x : OptimizationScenario) : State :=
  { s with selectedScenario := .val x }

/-- The click handler of a tab button (App.js 333): `setActiveTab(tab)`. -/
def setActiveTab (s : State) (tab : String) : State :=
  { s with activeTab := tab }

/-- The HTTP request that a handler passes to `fetch`. -/
inductive Request where
  | sensorCurrent (timestamp : String) : Request
  | predict (body : SensorSnapshot) : Request
  | optimize (body : OptimizeRequest) : Request
  | simulate (body : SimulateRequest) : Request
  | comparison (body : CompareRequest) : Request
  deriving DecidableEq, Repr

/-- The handlers of the component. -/
inductive Action where
  | fetchSensorData (useCurrentTime : Bool) : Action
  | predictEnergy : Action
  | runOptimization : Action
  | runSimulation (scenarioKey : String) : Action
  | compareScenarios (scenarioKeys : List String) : Action
  | selectScenario (x : OptimizationScenario) : Action
  | setActiveTab (tab : String) : Action
  deriving DecidableEq, Repr

/-- The request that a handler issues when it is called in state `s`, if any:
the five controllers call `fetch` once (two of them only when a snapshot
exists), the two click handlers never do. -/
def issuedRequest (rt : Runtime) (s : State) (a : Action) : Option Request :=
  match a with
  | .fetchSensorData useCurrentTime => some (.sensorCurrent (resolveTimestamp rt s useCurrentTime))
  | .predictEnergy => (predictRequest s).map Request.predict
  | .runOptimization => (optimizeRequest s).map Request.optimize
  | .runSimulation scenarioKey => some (.simulate (simulateRequest s scenarioKey))
  | .compareScenarios scenarioKeys => some (.comparison (compareRequest s scenarioKeys))
  | .selectScenario _ => none
  | .setActiveTab _ => none

/-! ## Calls, completions and the event loop

An asynchronous controller runs in two parts that the event loop processes
separately: the synchronous part up to the first `await`, and the part that
follows the completion of the request, which other events may precede. The
setters of the second part write the cells of the state in which the
completion is processed; only `fetchSensorData` reads a value captured at the
call, the clock value, and only in the label of the history entry. -/

/-- The synchronous part of `fetchSensorData`, `predictEnergy`, `runOptimization`
and `compareScenarios`: `setLoading(true)`. -/
def beginRequest (s : State) : State :=
  { s with loading := true }

/-- The synchronous part of `runSimulation` (App.js 137-138). -/
def beginSimulation (s : State) (scenarioKey : String) : State :=
  { s with loading := true, selectedSimulationScenario := .val scenarioKey }

/-- The completion of `fetchSensorData` (App.js 63-86), processed in state `s`,
for a call that captured the clock value `captured`. -/
def completeFetch (rt : Runtime) (captured : Date) (s : State)
    (outcome : Outcome SensorResponse) : State :=
  match outcome with
  | .threw => { s with loading := false }
  | .resolved result =>
    if result.success then
      match result.data with
      | .val d =>
        { s with
          sensorData := .val d
          selectedTimestamp := d.timestamp
          historicalData :=
            historyUpdater rt.localeCompare (timeLabel rt captured d) d s.historicalData
          loading := false }
      | .null => { s with sensorData := .null, loading := false }
      | .undefined => { s with sensorData := .undefined, loading := false }
    else { s with loading := false }

/-- The completion of `predictEnergy` (App.js 99-106). -/
def completePredict (s : State) (outcome : Outcome PredictResponse) : State :=
  match outcome with
  | .threw => { s with loading := false }
  | .resolved result =>
    if result.success then { s with predictions := result.predictions, loading := false }
    else { s with loading := false }

/-- The completion of `runOptimization` (App.js 122-133). -/
def completeOptimization (s : State) (outcome : Outcome OptimizeResponse) : State :=
  match outcome with
  | .threw => { s with loading := false }
  | .resolved result =>
    if result.success then applyOptimization s result else { s with loading := false }

/-- The completion of `runSimulation` (App.js 148-155). -/
def completeSimulation (s : State) (outcome : Outcome SimulateResponse) : State :=
  match outcome with
  | .threw => { s with loading := false }
  | .resolved result =>
    if result.success then { s with simulationResult := result.data, loading := false }
    else { s with loading := false }

/-- The completion of `compareScenarios` (App.js 169-176). -/
def completeComparison (s : State) (outcome : Outcome ComparisonResponse) : State :=
  match outcome with
  | .threw => { s with loading := false }
  | .resolved result =>
    if result.success then { s with comparisonData := .val result, loading := false }
    else { s with loading := false }

/-- The change handler of the date picker (App.js 386-390): a non-empty value
is parsed and stored in its default locale rendering. -/
def pickTimestamp (rt : Runtime) (s : State) (value : String) : State :=
  if value != "" then
    { s with selectedTimestamp := .val (rt.toLocaleString (rt.parseDate value)) }
  else s

/-- The events that the event loop processes one at a time. -/
inductive Event where
  | tick (now : Date) : Event
  | pickTimestamp (value : String) : Event
  | setActiveTab (tab : String) : Event
  | selectScenario (x : OptimizationScenario) : Event
  | fetchCalled : Event
  | fetchCompleted (captured : Date) (outcome : Outcome SensorResponse) : Event
  | predictCalled : Event
  | predictCompleted (outcome : Outcome PredictResponse) : Event
  | optimizeCalled : Event
  | optimizeCompleted (outcome : Outcome OptimizeResponse) : Event
  | simulateCalled (scenarioKey : String) : Event
  | simulateCompleted (outcome : Outcome SimulateResponse) : Event
  | compareCalled : Event
  | compareCompleted (outcome : Outcome ComparisonResponse) : Event
  deriving DecidableEq, Repr

/-- The state after one event: the clock tick is `setCurrentTime(new Date())`
(App.js 39); `predictEnergy` and `runOptimization` do nothing when they are
called without a snapshot. -/
def step (rt : Runtime) (s : State) (e : Event) : State :=
  match e with
  | .tick now => { s with currentTime := now }
  | .pickTimestamp value => pickTimestamp rt s value
  | .setActiveTab tab => setActiveTab s tab
  | .selectScenario x => selectScenario s x
  | .fetchCalled => beginRequest s
  | .fetchCompleted captured outcome => completeFetch rt captured s outcome
  | .predictCalled => if s.sensorData.truthyObj then beginRequest s else s
  | .predictCompleted outcome => completePredict s outcome
  | .optimizeCalled => if s.sensorData.truthyObj then beginRequest s else s
  | .optimizeCompleted outcome => completeOptimization s outcome
  | .simulateCalled scenarioKey => beginSimulation s scenarioKey
  | .simulateCompleted outcome => completeSimulation s outcome
  | .compareCalled => beginRequest s
  | .compareCompleted outcome => completeComparison s outcome

/-- The state after a sequence of events. -/
def run (rt : Runtime) (s : State) (events : List Event) : State :=
  events.foldl (step rt) s

/-- Every event of a sequence satisfies a condition on the state in which it
is processed. -/
def allowedAlong (rt : Runtime) (ok : State → Event → Bool) (s : State) :
    List Event → Bool
  | [] => true
  | e :: events => ok s e && allowedAlong rt ok (step rt s e) events

/-- The names of the five tab buttons (App.js 330). -/
def tabNames : List String := ["live", "predictions", "simulation", "optimization", "analytics"]

/-- The tab buttons are the five of `tabNames`: a tab event carries one of them. -/
def tabOffered ( _s : State) (e : Event) : Bool :=
  match e with
  | .setActiveTab tab => decide (tab ∈ tabNames)
  | _ => true

/-- The plans that the optimization tab displays (App.js 815-821): those of the
stored list. -/
def displayedScenarios (s : State) : List OptimizationScenario :=
  match s.scenarios with
  | .val xs => xs
  | _ => []

/-- A successful optimize response carries a scenario list, and a plan is
selected by a click on one of the displayed plans. -/
def scenarioEventsWellFormed (s : State) (e : Event) : Bool :=
  match e with
  | .optimizeCompleted (.resolved result) =>
    if result.success then result.scenarios.truthyObj else true
  | .selectScenario x => decide (x ∈ displayedScenarios s)
  | _ => true

/-- The event is not a call of `runSimulation`. -/
def notSimulateCall ( _s : State) (e : Event) : Bool :=
  match e with
  | .simulateCalled _ => false
  | _ => true

/-- The payload that a simulate completion stores, if it is a successful one. -/
def storedSimulation (e : Event) : Option (JSOpt SimulationResult) :=
  match e with
  | .simulateCompleted (.resolved result) => if result.success then some result.data else none
  | _ => none

/-! ## Values derived for display -/

/-- A field is nullish when it is `null` or `undefined`. -/
def JSOpt.nullish {α : Type} (x : JSOpt α) : Bool :=
  match x with
  | .val _ => false
  | _ => true

/-- The text of the template `x?.toFixed(digits)` inside a template literal:
an absent field renders as `undefined`. -/
def fixedOrUndefined (rt : Runtime) (x : JSOpt ℚ) (digits : Nat) : String :=
  match x with
  | .val q => (JSNum.fin q).toFixed rt digits
  | _ => "undefined"

/-- The expression `names[x]` for a numeric field: the element when the field
is an integer within range, `undefined` otherwise. -/
def indexByField (names : List String) (x : JSOpt ℚ) : Option String :=
  match x with
  | .val q => if q.den = 1 ∧ 0 ≤ q.num then names.get? q.num.toNat else none
  | _ => none

/-- The text that React renders for a numeric field: nothing when it is absent. -/
def renderedNumber (rt : Runtime) (x : JSOpt ℚ) : String :=
  match x with
  | .val q => rt.numberToString q
  | _ => ""

/-- The text `Yes` or `No` of a flag. -/
def yesNo (x : JSOpt ℚ) : String := if x.truthyNum then "Yes" else "No"

/-- The labels and values of the live sensor cards (App.js 432-461). -/
def liveCards (rt : Runtime) (sensorData : SensorSnapshot) : List (String × String) :=
  [ ("Indoor Temp", fixedOrUndefined rt sensorData.Indoor_Temp_C 1 ++ "°C"),
    ("Outdoor Temp", fixedOrUndefined rt sensorData.OutsideWeather_Temp_C 1 ++ "°C"),
    ("Indoor Humidity", fixedOrUndefined rt sensorData.Indoor_Humidity_Pct 0 ++ "%"),
    ("Outdoor Humidity", fixedOrUndefined rt sensorData.OutsideWeather_Humidity_Pct 0 ++ "%"),
    ("Occupancy", renderedNumber rt sensorData.Total_Occupancy_Count),
    ("HVAC Load", sensorData.HVAC_Load_Estimate.toNumber.round.toText rt ++ " W"),
    ("Energy Price", "$" ++ fixedOrUndefined rt sensorData.Energy_Price_USD_kWh 3 ++ "/kWh"),
    ("Pressure", fixedOrUndefined rt sensorData.Pressure_mmHg 0 ++ " mmHg"),
    ("Wind Speed", fixedOrUndefined rt sensorData.Wind_Speed_m_s 1 ++ " m/s"),
    ("Hour", rt.numberToString (sensorData.Hour.numOr 0) ++ ":00"),
    ("Temp Deviation", fixedOrUndefined rt sensorData.Temp_Deviation 1 ++ "°C"),
    ("Solar Irradiance", fixedOrUndefined rt sensorData.Solar_Irradiance_Estimate 0 ++ " W/m²"),
    ("Indoor Temp Dev", fixedOrUndefined rt sensorData.Indoor_Temp_Deviation 1 ++ "°C"),
    ("Indoor Humidity Dev", fixedOrUndefined rt sensorData.Indoor_Humidity_Deviation 1 ++ "%"),
    ("Humidity Deviation", fixedOrUndefined rt sensorData.Humidity_Deviation 1 ++ "%"),
    ("Temp-Occupancy", fixedOrUndefined rt sensorData.Temp_Occupancy_Interaction 0),
    ("Building Area", fixedOrUndefined rt sensorData.Building_Area_m2 0 ++ " m²"),
    ("Daylight Factor", fixedOrUndefined rt sensorData.Daylight_Hours_Factor 2),
    ("Lighting Ratio", fixedOrUndefined rt sensorData.Lighting_Occupancy_Ratio 2),
    ("Plug Peak Hour", yesNo sensorData.Plug_Peak_Hour),
    ("Device Usage",
      (sensorData.Device_Usage_Factor.toNumber.mul rt (.fin 100)).toFixed rt 0 ++ "%"),
    ("Remote Work",
      (sensorData.Remote_Work_Factor.toNumber.mul rt (.fin 100)).toFixed rt 0 ++ "%"),
    ("Price Sensitivity", fixedOrUndefined rt sensorData.Price_Sensitivity 2),
    ("Day of Week",
      (indexByField ["Sun", "Mon", "Tue", "Wed", "Thu", "Fri", "Sat"]
        sensorData.Day_of_Week).getD "N/A"),
    ("Is Weekend", yesNo sensorData.Is_Weekend),
    ("Is Daytime", yesNo sensorData.Is_Daytime),
    ("Season",
      (indexByField ["Winter", "Spring", "Summer", "Fall"] sensorData.Season).getD "N/A"),
    ("Month",
      (indexByField
        ["Jan", "Feb", "Mar", "Apr", "May", "Jun", "Jul", "Aug", "Sep", "Oct", "Nov", "Dec"]
        (.val (rt.roundNumber (sensorData.Month.numOr 1 - 1)))).getD "N/A") ]

/-- The value of the live card with a given label. -/
def cardValue (rt : Runtime) (sensorData : SensorSnapshot) (label : String) : Option String :=
  (liveCards rt sensorData).lookup label

/-- The price used by the cost figures: `sensorData.Energy_Price_USD_kWh || 0.1`. -/
def priceOrDefault (rt : Runtime) (sensorData : SensorSnapshot) : ℚ :=
  sensorData.Energy_Price_USD_kWh.numOr (rt.roundNumber (1 / 10))

/-- The names and costs of the cost breakdown chart (App.js 1293-1298). -/
def costBreakdown (rt : Runtime) (sensorData : SensorSnapshot)
    (predictions : PredictionResult) : List (String × JSNum) :=
  [ ("HVAC",
      ((predictions.Energy_HVAC_Wh.toNumber.div rt (.fin 1000)).mul rt
        (.fin (priceOrDefault rt sensorData)))),
    ("Lighting",
      ((predictions.Energy_Lighting_Wh.toNumber.div rt (.fin 1000)).mul rt
        (.fin (priceOrDefault rt sensorData)))),
    ("Plug",
      ((predictions.Energy_Plug_Wh.toNumber.div rt (.fin 1000)).mul rt
        (.fin (priceOrDefault rt sensorData)))),
    ("Other",
      (((JSNum.fin (predictions.Energy_Other_Wh.numOr 0)).div rt (.fin 1000)).mul rt
        (.fin (priceOrDefault rt sensorData)))) ]

/-- The figure of the Energy Intensity card (App.js 1336). -/
def energyIntensity (rt : Runtime) (sensorData : SensorSnapshot)
    (predictions : PredictionResult) : String :=
  ((predictions.Total_Energy_Wh.toNumber.div rt (.fin 1000)).div rt
    (.fin (sensorData.Building_Area_m2.numOr 1000))).toFixed rt 2

/-- The figure of the Hourly Cost card (App.js 1348), shown after a dollar sign. -/
def hourlyCost (rt : Runtime) (sensorData : SensorSnapshot)
    (predictions : PredictionResult) : String :=
  ((predictions.Total_Energy_Wh.toNumber.div rt (.fin 1000)).mul rt
    (.fin (priceOrDefault rt sensorData))).toFixed rt 2

/-- One entry of the energy breakdown charts. -/
structure BreakdownEntry where
  name : String
  value : ℚ
  color : String
  deriving DecidableEq, Repr

/-- The list `energyBreakdown` (App.js 201-206): four entries when a prediction is
stored, none otherwise; the last two colours are `theme.primary` and
`theme.accent`. -/
def energyBreakdown (predictions : JSOpt PredictionResult) : List BreakdownEntry :=
  match predictions with
  | .val p =>
    [ { name := "HVAC", value := p.Energy_HVAC_Wh.orDefault 0, color := "#ff0080" },
      { name := "Lighting", value := p.Energy_Lighting_Wh.orDefault 0, color := "#00ff80" },
      { name := "Plug Loads", value := p.Energy_Plug_Wh.orDefault 0, color := "#00ffff" },
      { name := "Other", value := p.Energy_Other_Wh.orDefault 0, color := "#ff00ff" } ]
  | _ => []

/-- The labels and values of the headline cards of a stored prediction
(App.js 546-551), each followed by the unit kWh. -/
def headlineCards (rt : Runtime) (predictions : PredictionResult) : List (String × String) :=
  [ ("HVAC Model", (predictions.Energy_HVAC_Wh.toNumber.div rt (.fin 1000)).toFixed rt 2),
    ("Lighting Model",
      (predictions.Energy_Lighting_Wh.toNumber.div rt (.fin 1000)).toFixed rt 2),
    ("Plug Model", (predictions.Energy_Plug_Wh.toNumber.div rt (.fin 1000)).toFixed rt 2),
    ("Total Energy (Meta Model)",
      (predictions.Total_Energy_Wh.toNumber.div rt (.fin 1000)).toFixed rt 2) ]

/-- The figure of the Efficiency Ratio card (App.js 1372), shown before a percent
sign. -/
def efficiencyRatio (rt : Runtime) (predictions : PredictionResult) : String :=
  (((predictions.Energy_HVAC_Wh.toNumber.add rt predictions.Energy_Lighting_Wh.toNumber).div rt
    predictions.Total_Energy_Wh.toNumber).mul rt (.fin 100)).toFixed rt 1

/-- The integer nearest to `|q| * 10 ^ digits`, a tie going up. -/
def nearestScaled (q : ℚ) (digits : Nat) : Nat :=
  (2 * q.num.natAbs * 10 ^ digits + q.den) / (2 * q.den)

/-- The decimal notation of `n / 10 ^ digits` with exactly `digits` decimals. -/
def decimalPlaces (n digits : Nat) : String :=
  let m : List Char := (toString n).data
  let padded : List Char := List.replicate (digits + 1 - m.length) '0' ++ m
  let k : Nat := padded.length - digits
  if digits = 0 then String.mk m
  else String.mk (padded.take k) ++ "." ++ String.mk (padded.drop k)

/-- The history step in the words of the specification (section 4.3): remove
the entries that share the label of the new entry, append the new entry, keep
the last 24 when there are more than 24, sort by label. -/
def specifiedRecord (localeCompare : String → String → Int) (entry : HistoricalEntry)
    (buffer : List HistoricalEntry) : List HistoricalEntry :=
  let deduplicated := buffer.filter (fun item => item.time != entry.time)
  let appended := deduplicated ++ [entry]
  let retained := if appended.length > 24 then sliceFromEnd 24 appended else appended
  jsSort (fun a b => localeCompare a.time b.time) retained

/-! ## A sample engine

One concrete `Runtime`, used to evaluate the definitions on concrete inputs:
an engine with the `en-US` default locale whose `Date` constructor accepts the
wire format, and whose collation is the code point order. -/

/-- Lexicographic comparison of two character sequences by code point. -/
def compareChars : List Char → List Char → Int
  | [], [] => 0
  | [], _ :: _ => -1
  | _ :: _, [] => 1
  | a :: as, b :: bs =>
    if a.toNat < b.toNat then -1
    else if b.toNat < a.toNat then 1
    else compareChars as bs

/-- Comparison of two strings by code point. -/
def codePointCompare (a b : String) : Int := compareChars a.data b.data

/-- The number written by a sequence of decimal digits, if it is one. -/
def parseDigits (cs : List Char) : Option Nat :=
  cs.foldlM (fun acc c => if c.isDigit then some (10 * acc + (c.toNat - 48)) else none) 0

/-- The number at the head of a character sequence, with the rest of it. -/
def takeNumber (cs : List Char) : Option (Nat × List Char) :=
  match cs.span Char.isDigit with
  | ([], _) => none
  | (ds, rest) => (parseDigits ds).map (fun n => (n, rest))

/-- The rest of a character sequence after a given separator, if it starts with it. -/
def dropSeparator (sep : List Char) (cs : List Char) : Option (List Char) :=
  if cs.take sep.length = sep then some (cs.drop sep.length) else none

/-- The number at the head of a character sequence and the rest of the
sequence after the separator that follows the number. -/
def numberThen (sep : List Char) (cs : List Char) : Option (Nat × List Char) :=
  match takeNumber cs with
  | some (n, r) => (dropSeparator sep r).map (fun r2 => (n, r2))
  | none => none

/-- The day period that ends a timestamp: false for ` AM`, true for ` PM`. -/
def parsePeriod (cs : List Char) : Option Bool :=
  if cs = [' ', 'A', 'M'] then some false
  else if cs = [' ', 'P', 'M'] then some true
  else none

/-- The civil time of the fields of a 12-hour timestamp, if they are in range. -/
def civilTime (mo dd yy hh mi ss : Nat) (pm : Bool) : Option DateTime :=
  if decide (1 ≤ mo) && decide (mo ≤ 12) && decide (1 ≤ dd) && decide (dd ≤ 31)
      && decide (1 ≤ hh) && decide (hh ≤ 12) && decide (mi < 60) && decide (ss < 60) then
    some
      { year := yy, month := mo, day := dd
        hour := hh % 12 + (if pm then 12 else 0), minute := mi, second := ss }
  else none

/-- The fields of `M/D/YYYY, h:mm:ss AM|PM`, with or without leading zeros. -/
def parseFields (cs : List Char) : Option DateTime :=
  (numberThen ['/'] cs).bind fun mo =>
  (numberThen ['/'] mo.2).bind fun dd =>
  (numberThen [',', ' '] dd.2).bind fun yy =>
  (numberThen [':'] yy.2).bind fun hh =>
  (numberThen [':'] hh.2).bind fun mi =>
  (takeNumber mi.2).bind fun ss =>
  (parsePeriod ss.2).bind fun pm => civilTime mo.1 dd.1 yy.1 hh.1 mi.1 ss.1 pm

/-- A `Date` constructor that accepts the `en-US` form `M/D/YYYY, h:mm:ss AM|PM`
(which includes the wire format) and yields an invalid date on any other string. -/
def parseWire (s : String) : Date :=
  match parseFields s.data with
  | some t => .valid t
  | none => .invalid

/-- The `en-US` rendering `hh:mm AM|PM` of the hour and minute of a date. -/
def hourMinuteLabel (date : Date) : String :=
  match date with
  | .invalid => "Invalid Date"
  | .valid t => twoDigit (hour12 t.hour) ++ ":" ++ twoDigit t.minute ++ " " ++ dayPeriod t.hour

/-- The shortest decimal expansion of a number that has a finite one of at most
30 decimals, and 17 decimals of it otherwise. -/
def decimalString (q : ℚ) : String :=
  match (List.range 31).find? (fun k => 10 ^ k % q.den = 0) with
  | some k => fixedDigits q k
  | none => fixedDigits q 17

/-- The `en-US` rendering `M/D/YYYY, h:mm:ss AM|PM` of a date. -/
def localeString (date : Date) : String :=
  match date with
  | .invalid => "Invalid Date"
  | .valid t =>
    toString t.month ++ "/" ++ toString t.day ++ "/" ++ toString t.year ++ ", " ++
      toString (hour12 t.hour) ++ ":" ++ twoDigit t.minute ++ ":" ++ twoDigit t.second ++
      " " ++ dayPeriod t.hour

/-- The sample engine: exact arithmetic. -/
def sampleRuntime : Runtime where
  parseDate := parseWire
  toLocaleTimeString := hourMinuteLabel
  localeCompare := codePointCompare
  roundNumber := fun q => q
  numberToString := decimalString
  toLocaleString := localeString

/-- The fetch of minute `k` of a sample day on the sample engine: the label
rendered by the engine and a snapshot echoing the timestamp. -/
def minuteStep (k : Nat) : String × SensorSnapshot :=
  let date := Date.valid
    { year := 2024, month := 1, day := 15, hour := k / 60, minute := k % 60, second := 0 }
  (hourMinuteLabel date,
    { timestamp := .val (formatTimestamp date), Indoor_Temp_C := .val 21,
      Indoor_Humidity_Pct := .val 40, Total_Occupancy_Count := .val 12 })

/-- The fetches of `n` consecutive minutes starting at minute `start` of the day. -/
def minuteSteps (start n : Nat) : List (String × SensorSnapshot) :=
  (List.range n).map (fun i => minuteStep (start + i))

/-! ## Frame predicate and sample states -/

/-- Every cell other than the busy flag `loading` has the same value in both states. -/
def State.sameExceptBusy (s t : State) : Prop :=
  t.currentTime = s.currentTime ∧ t.sensorData = s.sensorData ∧
    t.selectedTimestamp = s.selectedTimestamp ∧ t.historicalData = s.historicalData ∧
    t.predictions = s.predictions ∧ t.scenarios = s.scenarios ∧
    t.selectedScenario = s.selectedScenario ∧ t.comparisonData = s.comparisonData ∧
    t.optimizationComparison = s.optimizationComparison ∧
    t.simulationResult = s.simulationResult ∧
    t.selectedSimulationScenario = s.selectedSimulationScenario ∧ t.activeTab = s.activeTab

/-- The clock of the sample states: 15 January 2024, 10:30:00 AM. -/
def sampleNow : Date :=
  .valid { year := 2024, month := 1, day := 15, hour := 10, minute := 30, second := 0 }

/-- A sample snapshot, echoing the wire timestamp of `sampleNow`. -/
def sampleSnapshot : SensorSnapshot :=
  { timestamp := .val "01/15/2024, 10:30:00 AM", Indoor_Temp_C := .val 21,
    Indoor_Humidity_Pct := .val 40, Total_Occupancy_Count := .val 12,
    Building_Area_m2 := .val 1000 }

/-- The prediction of end-to-end scenario A of the specification. -/
def samplePrediction : PredictionResult :=
  { Energy_HVAC_Wh := .val 1200, Energy_Lighting_Wh := .val 300, Energy_Plug_Wh := .val 150,
    Energy_Other_Wh := .val 50, Total_Energy_Wh := .val 1700 }

/-- A sample optimization plan. -/
def samplePlan (name : String) (pct : ℚ) : OptimizationScenario :=
  { scenario := name, icon := .undefined, description := name, monthly_kwh := 900,
    monthly_cost_usd := 100, savings_pct := pct, savings_kwh := 50, cost_savings_usd := 6 }

/-- A sample simulation result for a scenario key. -/
def sampleSimulation (key : String) : SimulationResult :=
  { scenario := key, inputs := { temp := 30, occupancy := 12, price := 1 },
    outputs := { hvac := 1500, lighting := 300, plug := 150, total := 2000, cost := 2 } }

/-- A sample state in which a snapshot, a prediction, a list of plans and a
simulation result are all stored. -/
def liveState : State :=
  { State.initial sampleNow with
    sensorData := .val sampleSnapshot
    selectedTimestamp := .val "01/15/2024, 10:30:00 AM"
    historicalData := [newEntry "10:30 AM" sampleSnapshot]
    predictions := .val samplePrediction
    scenarios := .val [samplePlan "Setback" 8, samplePlan "Dimming" 5]
    selectedScenario := .val (samplePlan "Setback" 8)
    simulationResult := .val (sampleSimulation "baseline")
    selectedSimulationScenario := .val "baseline" }

/-- The sample state after the date picker has stored the `en-US` rendering
`toLocaleString()` of its value as the selection (App.js 388). -/
def pickedState : State :=
  { liveState with selectedTimestamp := .val "1/15/2024, 10:30:00 AM" }

/-- End-to-end scenario C: heatwave is called before cold snap and its response
is processed after the response of cold snap. -/
def reorderedSimulations : List Event :=
  [.simulateCalled "heatwave", .simulateCalled "cold_snap",
    .simulateCompleted (.resolved ⟨true, .val (sampleSimulation "cold_snap")⟩),
    .simulateCompleted (.resolved ⟨true, .val (sampleSimulation "heatwave")⟩)]

/-- The same completions in the same order, with the two calls issued the other
way round. -/
def swappedCalls : List Event :=
  [.simulateCalled "cold_snap", .simulateCalled "heatwave",
    .simulateCompleted (.resolved ⟨true, .val (sampleSimulation "cold_snap")⟩),
    .simulateCompleted (.resolved ⟨true, .val (sampleSimulation "heatwave")⟩)]

/-- End-to-end scenario D: a fetch, an optimization that returns three plans, and
a click on the third plan. -/
def scenarioClicks : List Event :=
  [.fetchCalled, .fetchCompleted sampleNow (.resolved ⟨true, .val sampleSnapshot⟩),
    .optimizeCalled,
    .optimizeCompleted
      (.resolved ⟨true, .val [samplePlan "A" 9, samplePlan "B" 7, samplePlan "C" 3],
        .undefined⟩),
    .selectScenario (samplePlan "C" 3)]

/-! ## The sample collation is a total preorder -/

theorem compareChars_self (a : List Char) : compareChars a a = 0 := by
  induction a with
  | nil => rfl
  | cons c cs ih => simp [compareChars, ih]

theorem compareChars_total (a b : List Char) :
    compareChars a b ≤ 0 ∨ compareChars b a ≤ 0 := by
  induction a generalizing b with
  | nil => cases b <;> simp [compareChars]
  | cons c cs ih =>
    cases b with
    | nil => simp [compareChars]
    | cons e es =>
      simp only [compareChars]
      rcases Nat.lt_trichotomy c.toNat e.toNat with h | h | h
      · simp [h]
      · simp [h, ih es]
      · right; simp [h]

theorem compareChars_trans (a b c : List Char) (hab : compareChars a b ≤ 0)
    (hbc : compareChars b c ≤ 0) : compareChars a c ≤ 0 := by
  induction a generalizing b c with
  | nil => cases c <;> simp [compareChars]
  | cons x xs ih =>
    cases b with
    | nil => simp [compareChars] at hab
    | cons y ys =>
      cases c with
      | nil => simp [compareChars] at hbc
      | cons z zs =>
        simp only [compareChars] at hab hbc ⊢
        split_ifs at hab hbc ⊢ <;> first | omega | exact ih _ _ hab hbc

theorem codePointCompare_self (a : String) : codePointCompare a a = 0 :=
  compareChars_self _

theorem codePointCompare_total (a b : String) :
    codePointCompare a b ≤ 0 ∨ codePointCompare b a ≤ 0 :=
  compareChars_total _ _

theorem codePointCompare_trans (a b c : String) (hab : codePointCompare a b ≤ 0)
    (hbc : codePointCompare b c ≤ 0) : codePointCompare a c ≤ 0 :=
  compareChars_trans _ _ _ hab hbc

/-! ## History buffer: basic facts -/

theorem length_sliceFromEnd_le {α : Type} (n : Nat) (xs : List α) :
    (sliceFromEnd n xs).length ≤ n := by
  unfold sliceFromEnd
  rw [List.length_drop]
  omega

theorem sliceFromEnd_sublist {α : Type} (n : Nat) (xs : List α) :
    (sliceFromEnd n xs).Sublist xs :=
  List.drop_sublist _ _

theorem jsSort_perm {α : Type} (cmp : α → α → Int) (xs : List α) :
    (jsSort cmp xs).Perm xs :=
  List.perm_insertionSort _ xs

theorem historyUpdater_perm (cmp : String → String → Int) (t : String) (d : SensorSnapshot)
    (prev : List HistoricalEntry) :
    (historyUpdater cmp t d prev).Perm
      (sliceFromEnd 23 (prev.filter (fun item => item.time != t)) ++ [newEntry t d]) :=
  jsSort_perm _ _

theorem length_historyUpdater_le (cmp : String → String → Int) (t : String)
    (d : SensorSnapshot) (prev : List HistoricalEntry) :
    (historyUpdater cmp t d prev).length ≤ 24 := by
  rw [(historyUpdater_perm cmp t d prev).length_eq, List.length_append, List.length_singleton]
  have := length_sliceFromEnd_le 23 (prev.filter (fun item => item.time != t))
  omega

theorem recordAll_append (cmp : String → String → Int) (steps : List (String × SensorSnapshot))
    (step : String × SensorSnapshot) :
    recordAll cmp (steps ++ [step]) = historyUpdater cmp step.1 step.2 (recordAll cmp steps) := by
  simp [recordAll, List.foldl_append]

theorem length_recordAll_le (cmp : String → String → Int)
    (steps : List (String × SensorSnapshot)) : (recordAll cmp steps).length ≤ 24 := by
  induction steps using List.reverseRecOn with
  | nil => simp [recordAll]
  | append_singleton steps step _ =>
    rw [recordAll_append]
    exact length_historyUpdater_le _ _ _ _

theorem nodup_labels_historyUpdater (cmp : String → String → Int) (t : String)
    (d : SensorSnapshot) (prev : List HistoricalEntry)
    (h : (prev.map (fun e => e.time)).Nodup) :
    ((historyUpdater cmp t d prev).map (fun e => e.time)).Nodup := by
  rw [((historyUpdater_perm cmp t d prev).map _).nodup_iff, List.map_append, List.nodup_append]
  refine ⟨?_, by simp, ?_⟩
  · exact h.sublist
      (((sliceFromEnd_sublist 23 _).trans (List.filter_sublist _)).map _)
  · intro a ha hb
    simp only [List.map_cons, List.map_nil, List.mem_singleton] at hb
    obtain ⟨x, hx, rfl⟩ := List.mem_map.1 ha
    have hx2 := List.mem_filter.1 ((sliceFromEnd_sublist 23 _).subset hx)
    simp [newEntry] at hb
    simp [hb] at hx2

/-- C1: after every step of every sequence of history record steps that starts
from the empty buffer, the buffer holds at most 24 entries. -/
theorem history_size_bound (cmp : String → String → Int)
    (steps : List (String × SensorSnapshot)) (k : Nat) :
    (recordAll cmp (steps.take k)).length ≤ 24 :=
  length_recordAll_le cmp _

/-- C2: after every step of every sequence of history record steps that starts
from the empty buffer, no two entries of the buffer have the same time label. -/
theorem history_labels_nodup (cmp : String → String → Int)
    (steps : List (String × SensorSnapshot)) (k : Nat) :
    ((recordAll cmp (steps.take k)).map (fun e => e.time)).Nodup := by
  generalize steps.take k = l
  induction l using List.reverseRecOn with
  | nil => simp [recordAll]
  | append_singleton steps step ih =>
    rw [recordAll_append]
    exact nodup_labels_historyUpdater _ _ _ _ ih

/-- C3: from every buffer, recording an entry leaves a buffer that contains it, and
the entries of the result that carry its label are that entry alone, once. -/
theorem history_newest_wins (cmp : String → String → Int) (prev : List HistoricalEntry)
    (t : String) (d : SensorSnapshot) :
    newEntry t d ∈ historyUpdater cmp t d prev ∧
      (historyUpdater cmp t d prev).filter (fun x => x.time == (newEntry t d).time)
        = [newEntry t d] := by
  have hp := historyUpdater_perm cmp t d prev
  refine ⟨hp.symm.subset (by simp), ?_⟩
  have hf := hp.filter (fun x => x.time == (newEntry t d).time)
  rw [List.filter_append] at hf
  have h0 : (sliceFromEnd 23 (prev.filter (fun item => item.time != t))).filter
      (fun x => x.time == (newEntry t d).time) = [] := by
    rw [List.filter_eq_nil_iff]
    intro x hx
    have hx2 := List.mem_filter.1 ((sliceFromEnd_sublist 23 _).subset hx)
    simpa [newEntry] using hx2.2
  rw [h0] at hf
  simpa using hf

theorem sliceFromEnd_eq_self {α : Type} (n : Nat) (xs : List α) (h : xs.length ≤ n) :
    sliceFromEnd n xs = xs := by
  unfold sliceFromEnd
  rw [Nat.sub_eq_zero_of_le h, List.drop_zero]

theorem mem_recordAll (cmp : String → String → Int) (steps : List (String × SensorSnapshot))
    (x : HistoricalEntry) (hx : x ∈ recordAll cmp steps) :
    ∃ p ∈ steps, x = newEntry p.1 p.2 := by
  induction steps using List.reverseRecOn generalizing x with
  | nil => simp [recordAll] at hx
  | append_singleton steps step ih =>
    rw [recordAll_append] at hx
    have hx2 := (historyUpdater_perm cmp step.1 step.2 (recordAll cmp steps)).subset hx
    rcases List.mem_append.1 hx2 with h | h
    · obtain ⟨p, hp, rfl⟩ :=
        ih x (List.mem_filter.1 ((sliceFromEnd_sublist 23 _).subset h)).1
      exact ⟨p, List.mem_append_left _ hp, rfl⟩
    · exact ⟨step, by simp, by simpa using h⟩

theorem filter_recordAll_of_fresh (cmp : String → String → Int)
    (steps : List (String × SensorSnapshot)) (t : String)
    (ht : t ∉ steps.map (fun p => p.1)) :
    (recordAll cmp steps).filter (fun item => item.time != t) = recordAll cmp steps := by
  rw [List.filter_eq_self]
  intro x hx
  obtain ⟨p, hp, rfl⟩ := mem_recordAll cmp steps x hx
  have : p.1 ≠ t := fun h => ht (h ▸ List.mem_map_of_mem _ hp)
  simpa [newEntry] using this

theorem recordAll_perm_of_short (cmp : String → String → Int)
    (steps : List (String × SensorSnapshot)) (hnd : (steps.map (fun p => p.1)).Nodup)
    (hlen : steps.length ≤ 24) :
    (recordAll cmp steps).Perm (steps.map (fun p => newEntry p.1 p.2)) := by
  induction steps using List.reverseRecOn with
  | nil => simp [recordAll]
  | append_singleton steps step ih =>
    rw [List.map_append, List.nodup_append] at hnd
    rw [List.length_append, List.length_singleton] at hlen
    have ih2 := ih hnd.1 (by omega)
    have hfresh : step.1 ∉ steps.map (fun p => p.1) := fun h => hnd.2.2 h (by simp)
    rw [recordAll_append]
    refine (historyUpdater_perm cmp _ _ _).trans ?_
    rw [filter_recordAll_of_fresh cmp steps step.1 hfresh,
      sliceFromEnd_eq_self 23 _ (by rw [ih2.length_eq, List.length_map]; omega), List.map_append]
    exact ih2.append_right _

/-- C4, amended: in a sequence of record steps with pairwise distinct labels, a step
keeps the new entry together with the last 23 entries of the prior buffer in
buffer order; while at most 24 steps have run, the buffer holds exactly the
entries of all of them. -/
theorem history_keeps_buffer_tail (cmp : String → String → Int)
    (steps : List (String × SensorSnapshot)) (step : String × SensorSnapshot)
    (hnd : ((steps ++ [step]).map (fun p => p.1)).Nodup) :
    (recordAll cmp (steps ++ [step])).Perm
        (sliceFromEnd 23 (recordAll cmp steps) ++ [newEntry step.1 step.2]) ∧
      (steps.length + 1 ≤ 24 →
        (recordAll cmp (steps ++ [step])).Perm
          ((steps ++ [step]).map (fun p => newEntry p.1 p.2))) := by
  refine ⟨?_, fun hlen => recordAll_perm_of_short cmp _ hnd (by simpa using hlen)⟩
  rw [List.map_append, List.nodup_append] at hnd
  have hfresh : step.1 ∉ steps.map (fun p => p.1) := fun h => hnd.2.2 h (by simp)
  rw [recordAll_append]
  have := historyUpdater_perm cmp step.1 step.2 (recordAll cmp steps)
  rwa [filter_recordAll_of_fresh cmp steps step.1 hfresh] at this

/-- C6: from every prior buffer, the buffer after a record step is sorted in
non-decreasing order of the time label, for a comparison that is total and
transitive. -/
theorem history_sorted_by_label (cmp : String → String → Int)
    (htotal : ∀ a b, cmp a b ≤ 0 ∨ cmp b a ≤ 0)
    (htrans : ∀ a b c, cmp a b ≤ 0 → cmp b c ≤ 0 → cmp a c ≤ 0)
    (prev : List HistoricalEntry) (t : String) (d : SensorSnapshot) :
    (historyUpdater cmp t d prev).Sorted (fun a b => cmp a.time b.time ≤ 0) := by
  haveI : IsTotal HistoricalEntry (fun a b => cmp a.time b.time ≤ 0) :=
    ⟨fun a b => htotal a.time b.time⟩
  haveI : IsTrans HistoricalEntry (fun a b => cmp a.time b.time ≤ 0) :=
    ⟨fun a b c => htrans a.time b.time c.time⟩
  exact List.sorted_insertionSort _ _

/-- C5: when the labels of a sequence of record steps increase strictly in the order
used by the sort, the final buffer is the list of the last `min n 24` recorded
entries, in recording order. -/
theorem history_increasing_labels (cmp : String → String → Int)
    (hrefl : ∀ a, cmp a a = 0) (steps : List (String × SensorSnapshot))
    (hinc : steps.Pairwise (fun p q => cmp p.1 q.1 < 0)) :
    recordAll cmp steps
      = (steps.map (fun p => newEntry p.1 p.2)).drop (steps.length - 24) := by
  induction steps using List.reverseRecOn with
  | nil => simp [recordAll]
  | append_singleton steps step ih =>
    rw [List.pairwise_append] at hinc
    obtain ⟨h1, -, h3⟩ := hinc
    have hfresh : step.1 ∉ steps.map (fun p => p.1) := by
      intro h
      obtain ⟨p, hp, hpe⟩ := List.mem_map.1 h
      have := h3 p hp step (by simp)
      rw [hpe, hrefl] at this
      exact lt_irrefl _ this
    have hs : ((steps ++ [step]).map (fun p => newEntry p.1 p.2)).Sorted
        (fun a b => cmp a.time b.time ≤ 0) := by
      rw [List.Sorted, List.pairwise_map]
      refine List.pairwise_append.2 ⟨h1.imp (fun h => le_of_lt h), by simp, ?_⟩
      intro a ha b hb
      exact le_of_lt (h3 a ha b hb)
    rw [recordAll_append]
    simp only [historyUpdater]
    rw [filter_recordAll_of_fresh cmp steps step.1 hfresh, ih h1]
    have hkey : sliceFromEnd 23
          ((steps.map (fun p => newEntry p.1 p.2)).drop (steps.length - 24))
          ++ [newEntry step.1 step.2]
        = ((steps ++ [step]).map (fun p => newEntry p.1 p.2)).drop
            ((steps ++ [step]).length - 24) := by
      unfold sliceFromEnd
      rw [List.drop_drop, List.length_drop, List.length_map, List.map_append,
        List.length_append, List.length_singleton,
        List.drop_append_of_le_length (by rw [List.length_map]; omega)]
      congr 2
      omega
    rw [hkey]
    exact List.Sorted.insertionSort_eq (hs.sublist (List.drop_sublist _ _))

/-! ## History buffer: evaluations on the sample engine -/

set_option maxRecDepth 100000

/-- C5, witness: 25 consecutive minutes from 10:00 AM on the sample engine. -/
theorem history_increasing_labels_witness :
    (∀ a, codePointCompare a a = 0) ∧
      (minuteSteps 600 25).Pairwise (fun p q => codePointCompare p.1 q.1 < 0) ∧
      recordAll codePointCompare (minuteSteps 600 25)
        = ((minuteSteps 600 25).map (fun p => newEntry p.1 p.2)).drop
            ((minuteSteps 600 25).length - 24) :=
  ⟨codePointCompare_self, by decide,
    history_increasing_labels codePointCompare codePointCompare_self (minuteSteps 600 25)
      (by decide)⟩

/-- C4, counterexample: 26 consecutive minutes from 12:36 PM on the sample engine
have distinct labels; the entry of 01:00 PM is among the 24 most recent record
calls and is not in the final buffer. -/
theorem history_recent_lost_at_rollover :
    ((minuteSteps 756 26).map (fun p => p.1)).Nodup ∧
      newEntry (minuteStep 780).1 (minuteStep 780).2 ∈
        ((minuteSteps 756 26).map (fun p => newEntry p.1 p.2)).drop
          ((minuteSteps 756 26).length - 24) ∧
      newEntry (minuteStep 780).1 (minuteStep 780).2 ∉
        recordAll codePointCompare (minuteSteps 756 26) := by
  decide

/-- C4, witness: three fetches across the 01:00 PM rollover. -/
theorem history_keeps_buffer_tail_witness :
    ((minuteSteps 779 2 ++ [minuteStep 781]).map (fun p => p.1)).Nodup ∧
      ((recordAll codePointCompare (minuteSteps 779 2 ++ [minuteStep 781])).Perm
          (sliceFromEnd 23 (recordAll codePointCompare (minuteSteps 779 2))
            ++ [newEntry (minuteStep 781).1 (minuteStep 781).2]) ∧
        ((minuteSteps 779 2).length + 1 ≤ 24 →
          (recordAll codePointCompare (minuteSteps 779 2 ++ [minuteStep 781])).Perm
            ((minuteSteps 779 2 ++ [minuteStep 781]).map (fun p => newEntry p.1 p.2)))) :=
  ⟨by decide,
    history_keeps_buffer_tail codePointCompare (minuteSteps 779 2) (minuteStep 781) (by decide)⟩

/-- C6, witness: a buffer that is not in label order, and a label between its two. -/
theorem history_sorted_by_label_witness :
    (∀ a b, codePointCompare a b ≤ 0 ∨ codePointCompare b a ≤ 0) ∧
      (∀ a b c, codePointCompare a b ≤ 0 → codePointCompare b c ≤ 0 →
        codePointCompare a c ≤ 0) ∧
      (historyUpdater codePointCompare (minuteStep 603).1 (minuteStep 603).2
          [newEntry (minuteStep 605).1 (minuteStep 605).2,
            newEntry (minuteStep 601).1 (minuteStep 601).2]).Sorted
        (fun a b => codePointCompare a.time b.time ≤ 0) :=
  ⟨codePointCompare_total, codePointCompare_trans,
    history_sorted_by_label codePointCompare codePointCompare_total codePointCompare_trans
      _ _ _⟩

/-! ## Request timestamps -/

theorem digitChar_ne_slash (d : Nat) : digitChar d ≠ '/' := by
  unfold digitChar
  have h : d % 10 < 10 := Nat.mod_lt _ (by decide)
  generalize d % 10 = k at h
  interval_cases k <;> decide

theorem formatTimestamp_ne_picked (date : Date) :
    formatTimestamp date ≠ "1/15/2024, 10:30:00 AM" := by
  cases date with
  | invalid => decide
  | valid t =>
    intro h
    have h2 := congrArg String.data h
    simp only [formatTimestamp, twoDigit, String.data_append] at h2
    have h3 := (List.cons.inj (List.cons.inj h2).2).1
    exact digitChar_ne_slash _ h3

theorem resolveTimestamp_of_truthy (rt : Runtime) (s : State) (sel : String)
    (h : s.selectedTimestamp = .val sel) (hne : sel ≠ "") :
    resolveTimestamp rt s false = formatTimestamp (rt.parseDate sel) := by
  simp [resolveTimestamp, h, hne]

theorem resolveTimestamp_of_falsy (rt : Runtime) (s : State)
    (h : s.selectedTimestamp.truthyStr = false) :
    resolveTimestamp rt s false = formatTimestamp s.currentTime := by
  unfold resolveTimestamp
  cases hs : s.selectedTimestamp with
  | null => simp
  | undefined => simp
  | val a =>
    rw [hs] at h
    simp only [JSOpt.truthyStr] at h
    simp [h]

/-- C7: at the state reached by loading a snapshot and picking 2024-01-15 10:30 in
the date picker, the request bodies of predict, optimize, simulate and compare
carry the stored string `1/15/2024, 10:30:00 AM` as it is, while the timestamp
resolved for `useCurrentTime = false`, which `fetchSensorData` sends for the same
selection, is `01/15/2024, 10:30:00 AM` on the sample engine, and on no engine is
it the string that the four bodies carry. -/
theorem request_timestamp_not_resolved :
    (predictRequest pickedState).map (fun body => body.timestamp)
        = some (.val "1/15/2024, 10:30:00 AM") ∧
      (optimizeRequest pickedState).map (fun body => body.timestamp)
        = some "1/15/2024, 10:30:00 AM" ∧
      (simulateRequest pickedState "heatwave").timestamp = "1/15/2024, 10:30:00 AM" ∧
      (compareRequest pickedState ["baseline", "heatwave"]).timestamp
        = "1/15/2024, 10:30:00 AM" ∧
      resolveTimestamp sampleRuntime pickedState false = "01/15/2024, 10:30:00 AM" ∧
      ¬ ∃ rt : Runtime, resolveTimestamp rt pickedState false = "1/15/2024, 10:30:00 AM" := by
  refine ⟨by decide, by decide, by decide, by decide, by decide, ?_⟩
  rintro ⟨rt, h⟩
  rw [resolveTimestamp_of_truthy rt pickedState "1/15/2024, 10:30:00 AM" rfl (by decide)] at h
  exact formatTimestamp_ne_picked _ h

/-! ## Controllers: responses without payload, failures -/

/-- C8, amended: a response with `success = true` whose payload field is absent
overwrites the cell of the operation with `undefined` (snapshot for fetch,
prediction for predict, scenario list for optimize, simulation result for
simulate; for predict and optimize when the call is issued, that is when a
snapshot exists) and leaves the other three of these four cells as they were. -/
theorem success_without_payload (rt : Runtime) (s : State) (useCurrentTime : Bool)
    (comparison : JSOpt ComparisonResult) (scenarioKey : String) :
    ((fetchSensorData rt s useCurrentTime (.resolved ⟨true, .undefined⟩)).sensorData
        = .undefined ∧
      (fetchSensorData rt s useCurrentTime (.resolved ⟨true, .undefined⟩)).predictions
        = s.predictions ∧
      (fetchSensorData rt s useCurrentTime (.resolved ⟨true, .undefined⟩)).scenarios
        = s.scenarios ∧
      (fetchSensorData rt s useCurrentTime (.resolved ⟨true, .undefined⟩)).simulationResult
        = s.simulationResult) ∧
    ((predictEnergy s (.resolved ⟨true, .undefined⟩)).predictions
        = (if s.sensorData.truthyObj then .undefined else s.predictions) ∧
      (predictEnergy s (.resolved ⟨true, .undefined⟩)).sensorData = s.sensorData ∧
      (predictEnergy s (.resolved ⟨true, .undefined⟩)).scenarios = s.scenarios ∧
      (predictEnergy s (.resolved ⟨true, .undefined⟩)).simulationResult
        = s.simulationResult) ∧
    ((runOptimization s (.resolved ⟨true, .undefined, comparison⟩)).scenarios
        = (if s.sensorData.truthyObj then .undefined else s.scenarios) ∧
      (runOptimization s (.resolved ⟨true, .undefined, comparison⟩)).sensorData
        = s.sensorData ∧
      (runOptimization s (.resolved ⟨true, .undefined, comparison⟩)).predictions
        = s.predictions ∧
      (runOptimization s (.resolved ⟨true, .undefined, comparison⟩)).simulationResult
        = s.simulationResult) ∧
    ((runSimulation s scenarioKey (.resolved ⟨true, .undefined⟩)).simulationResult
        = .undefined ∧
      (runSimulation s scenarioKey (.resolved ⟨true, .undefined⟩)).sensorData
        = s.sensorData ∧
      (runSimulation s scenarioKey (.resolved ⟨true, .undefined⟩)).predictions
        = s.predictions ∧
      (runSimulation s scenarioKey (.resolved ⟨true, .undefined⟩)).scenarios
        = s.scenarios) := by
  refine ⟨⟨rfl, rfl, rfl, rfl⟩, ?_, ?_, ⟨rfl, rfl, rfl, rfl⟩⟩
  · cases h : s.sensorData.truthyObj <;> simp [predictEnergy, h]
  · cases h : s.sensorData.truthyObj <;> simp [runOptimization, applyOptimization, h]

/-- C8, counterexample: in a state where all four cells are stored, each of the
four operations changes its own cell on a successful response without payload. -/
theorem success_without_payload_overwrites :
    (fetchSensorData sampleRuntime liveState false (.resolved ⟨true, .undefined⟩)).sensorData
        ≠ liveState.sensorData ∧
      (predictEnergy liveState (.resolved ⟨true, .undefined⟩)).predictions
        ≠ liveState.predictions ∧
      (runOptimization liveState (.resolved ⟨true, .undefined, .undefined⟩)).scenarios
        ≠ liveState.scenarios ∧
      (runSimulation liveState "heatwave" (.resolved ⟨true, .undefined⟩)).simulationResult
        ≠ liveState.simulationResult := by
  decide

/-- C9: for fetch, predict, optimize and compare, when the request throws or the
response has `success = false`, every cell other than the busy flag is unchanged. -/
theorem failure_keeps_state (rt : Runtime) (s : State) (useCurrentTime : Bool)
    (scenarioKeys : List String) :
    (s.sameExceptBusy (fetchSensorData rt s useCurrentTime .threw) ∧
      ∀ r : SensorResponse, r.success = false →
        s.sameExceptBusy (fetchSensorData rt s useCurrentTime (.resolved r))) ∧
    (s.sameExceptBusy (predictEnergy s .threw) ∧
      ∀ r : PredictResponse, r.success = false →
        s.sameExceptBusy (predictEnergy s (.resolved r))) ∧
    (s.sameExceptBusy (runOptimization s .threw) ∧
      ∀ r : OptimizeResponse, r.success = false →
        s.sameExceptBusy (runOptimization s (.resolved r))) ∧
    (s.sameExceptBusy (compareScenarios s scenarioKeys .threw) ∧
      ∀ r : ComparisonResponse, r.success = false →
        s.sameExceptBusy (compareScenarios s scenarioKeys (.resolved r))) := by
  refine ⟨⟨?_, fun r hr => ?_⟩, ⟨?_, fun r hr => ?_⟩, ⟨?_, fun r hr => ?_⟩,
    ⟨?_, fun r hr => ?_⟩⟩
  · simp [State.sameExceptBusy, fetchSensorData]
  · simp [State.sameExceptBusy, fetchSensorData, hr]
  · cases h : s.sensorData.truthyObj <;> simp [State.sameExceptBusy, predictEnergy, h]
  · cases h : s.sensorData.truthyObj <;> simp [State.sameExceptBusy, predictEnergy, h, hr]
  · cases h : s.sensorData.truthyObj <;> simp [State.sameExceptBusy, runOptimization, h]
  · cases h : s.sensorData.truthyObj <;> simp [State.sameExceptBusy, runOptimization, h, hr]
  · simp [State.sameExceptBusy, compareScenarios]
  · simp [State.sameExceptBusy, compareScenarios, hr]

/-- C9, witness: a refused fetch and a refused optimization in the sample state. -/
theorem failure_keeps_state_witness :
    (⟨false, .val sampleSnapshot⟩ : SensorResponse).success = false ∧
      liveState.sameExceptBusy
        (fetchSensorData sampleRuntime liveState true
          (.resolved ⟨false, .val sampleSnapshot⟩)) ∧
      (⟨false, .val [samplePlan "Setback" 9], .undefined⟩ : OptimizeResponse).success = false ∧
      liveState.sameExceptBusy
        (runOptimization liveState
          (.resolved ⟨false, .val [samplePlan "Setback" 9], .undefined⟩)) :=
  ⟨rfl, (failure_keeps_state sampleRuntime liveState true []).1.2 _ rfl, rfl,
    (failure_keeps_state sampleRuntime liveState true []).2.2.1.2 _ rfl⟩

/-- C10, amended: after `simulate(scenarioKey)` completes, the active simulation
scenario is `scenarioKey` whether the call succeeded or failed; the stored
simulation result is the response data when the call succeeded and its prior
value when the call failed. -/
theorem simulate_active_scenario (s : State) (scenarioKey : String) :
    (runSimulation s scenarioKey .threw).selectedSimulationScenario = .val scenarioKey ∧
      (runSimulation s scenarioKey .threw).simulationResult = s.simulationResult ∧
      ∀ r : SimulateResponse,
        (runSimulation s scenarioKey (.resolved r)).selectedSimulationScenario
            = .val scenarioKey ∧
          (runSimulation s scenarioKey (.resolved r)).simulationResult
            = (if r.success then r.data else s.simulationResult) := by
  refine ⟨rfl, rfl, fun r => ?_⟩
  cases h : r.success <;> simp [runSimulation, h]

/-- C10, counterexample: a simulation that throws, or that is refused, leaves the
active simulation scenario at the new key, not at its prior value. -/
theorem simulate_failure_changes_active :
    (runSimulation liveState "heatwave" .threw).selectedSimulationScenario
        ≠ liveState.selectedSimulationScenario ∧
      (runSimulation liveState "heatwave"
          (.resolved ⟨false, .undefined⟩)).selectedSimulationScenario
        ≠ liveState.selectedSimulationScenario ∧
      (runSimulation (State.initial sampleNow) "heatwave" .threw).selectedSimulationScenario
        = .val "heatwave" := by
  decide

/-! ## Timestamp resolution -/

theorem formatTimestamp_ne_empty (date : Date) : formatTimestamp date ≠ "" := by
  cases date with
  | invalid => decide
  | valid t =>
    intro h
    have h2 := congrArg String.data h
    simp [formatTimestamp, twoDigit, String.data_append] at h2

/-- C11: with `useCurrentTime = true` the resolved timestamp is `formatTimestamp` of
the clock value, whatever the selection; so the request of a second
`fetchSensorData(true)` call, issued with the same clock value after the first
call has completed with any outcome, carries the same timestamp as the first. -/
theorem resolve_current_uses_clock (rt : Runtime) (s : State)
    (outcome : Outcome SensorResponse) :
    resolveTimestamp rt s true = formatTimestamp s.currentTime ∧
      issuedRequest rt s (.fetchSensorData true)
        = some (.sensorCurrent (formatTimestamp s.currentTime)) ∧
      (fetchSensorData rt s true outcome).currentTime = s.currentTime ∧
      issuedRequest rt (fetchSensorData rt s true outcome) (.fetchSensorData true)
        = issuedRequest rt s (.fetchSensorData true) := by
  have hc : (fetchSensorData rt s true outcome).currentTime = s.currentTime := by
    cases outcome with
    | threw => rfl
    | resolved r =>
      cases hr : r.success with
      | false => simp [fetchSensorData, hr]
      | true =>
        cases hd : r.data <;> simp [fetchSensorData, applySensorData, hr, hd]
  refine ⟨by simp [resolveTimestamp], by simp [issuedRequest, resolveTimestamp], hc, ?_⟩
  simp [issuedRequest, resolveTimestamp, hc]

/-- C12: with `useCurrentTime = false` the resolved timestamp is `formatTimestamp` of
the parsed selection when a selection is present (a non-empty string), and
`formatTimestamp` of the clock value when there is none (`null`, `undefined` or
the empty string, which is falsy); it is a non-empty string in every state. -/
theorem resolve_selected_or_clock (rt : Runtime) (s : State) :
    (∀ sel, s.selectedTimestamp = .val sel → sel ≠ "" →
      resolveTimestamp rt s false = formatTimestamp (rt.parseDate sel)) ∧
    (s.selectedTimestamp.truthyStr = false →
      resolveTimestamp rt s false = formatTimestamp s.currentTime) ∧
    resolveTimestamp rt s false ≠ "" := by
  refine ⟨fun sel h hne => resolveTimestamp_of_truthy rt s sel h hne,
    fun h => resolveTimestamp_of_falsy rt s h, ?_⟩
  cases h : s.selectedTimestamp.truthyStr with
  | false =>
    rw [resolveTimestamp_of_falsy rt s h]
    exact formatTimestamp_ne_empty _
  | true =>
    cases hs : s.selectedTimestamp with
    | null => simp [hs, JSOpt.truthyStr] at h
    | undefined => simp [hs, JSOpt.truthyStr] at h
    | val sel =>
      have hne : sel ≠ "" := by simpa [hs, JSOpt.truthyStr] using h
      rw [resolveTimestamp_of_truthy rt s sel hs hne]
      exact formatTimestamp_ne_empty _

/-- C12, witness: the sample state with its echoed selection, and the initial state. -/
theorem resolve_selected_or_clock_witness :
    liveState.selectedTimestamp = .val "01/15/2024, 10:30:00 AM" ∧
      resolveTimestamp sampleRuntime liveState false
        = formatTimestamp (sampleRuntime.parseDate "01/15/2024, 10:30:00 AM") ∧
      (State.initial sampleNow).selectedTimestamp.truthyStr = false ∧
      resolveTimestamp sampleRuntime (State.initial sampleNow) false
        = formatTimestamp (State.initial sampleNow).currentTime :=
  ⟨rfl, (resolve_selected_or_clock sampleRuntime liveState).1 _ rfl (by decide), rfl,
    (resolve_selected_or_clock sampleRuntime (State.initial sampleNow)).2.1 rfl⟩

/-! ## Absent fields and the price fallback -/

theorem orDefault_of_nullish (a : JSOpt ℚ) (ha : a.nullish = true) :
    a.orDefault 0 = (JSOpt.val (0 : ℚ)).orDefault 0 := by
  cases a <;> simp [JSOpt.nullish] at ha <;> rfl

theorem numOr_of_nullish (a : JSOpt ℚ) (d : ℚ) (ha : a.nullish = true) :
    a.numOr d = (JSOpt.val (0 : ℚ)).numOr d := by
  cases a <;> simp [JSOpt.nullish] at ha <;> simp [JSOpt.numOr]

theorem truthyNum_of_nullish (a : JSOpt ℚ) (ha : a.nullish = true) :
    a.truthyNum = (JSOpt.val (0 : ℚ)).truthyNum := by
  cases a <;> simp [JSOpt.nullish] at ha <;> simp [JSOpt.truthyNum]

/-- C13, amended: when an optional numeric field of a snapshot is absent (`null`
or `undefined`), the history entry fields, the cost breakdown, the hourly cost,
the energy intensity and the live cards Hour, Plug Peak Hour, Is Weekend, Is
Daytime and Month derived from it equal the values obtained with that field
set to 0; a live card that formats its field with `?.toFixed` shows the text
`undefined` in place of a number. -/
theorem absent_field_defaults (rt : Runtime) (d : SensorSnapshot) (p : PredictionResult)
    (timeStr : String) (a : JSOpt ℚ) (ha : a.nullish = true) :
    (newEntry timeStr { d with Indoor_Temp_C := a }
        = newEntry timeStr { d with Indoor_Temp_C := .val 0 } ∧
      newEntry timeStr { d with Indoor_Humidity_Pct := a }
        = newEntry timeStr { d with Indoor_Humidity_Pct := .val 0 } ∧
      newEntry timeStr { d with Total_Occupancy_Count := a }
        = newEntry timeStr { d with Total_Occupancy_Count := .val 0 }) ∧
    (costBreakdown rt { d with Energy_Price_USD_kWh := a } p
        = costBreakdown rt { d with Energy_Price_USD_kWh := .val 0 } p ∧
      hourlyCost rt { d with Energy_Price_USD_kWh := a } p
        = hourlyCost rt { d with Energy_Price_USD_kWh := .val 0 } p ∧
      energyIntensity rt { d with Building_Area_m2 := a } p
        = energyIntensity rt { d with Building_Area_m2 := .val 0 } p) ∧
    (cardValue rt { d with Hour := a } "Hour"
        = cardValue rt { d with Hour := .val 0 } "Hour" ∧
      cardValue rt { d with Plug_Peak_Hour := a } "Plug Peak Hour"
        = cardValue rt { d with Plug_Peak_Hour := .val 0 } "Plug Peak Hour" ∧
      cardValue rt { d with Is_Weekend := a } "Is Weekend"
        = cardValue rt { d with Is_Weekend := .val 0 } "Is Weekend" ∧
      cardValue rt { d with Is_Daytime := a } "Is Daytime"
        = cardValue rt { d with Is_Daytime := .val 0 } "Is Daytime" ∧
      cardValue rt { d with Month := a } "Month"
        = cardValue rt { d with Month := .val 0 } "Month") ∧
    (∀ digits, fixedOrUndefined rt a digits = "undefined") ∧
    cardValue rt { d with Indoor_Temp_C := a } "Indoor Temp" = some "undefined°C" := by
  have h1 := orDefault_of_nullish a ha
  have h2 := fun dflt => numOr_of_nullish a dflt ha
  have h3 := truthyNum_of_nullish a ha
  have h4 : ∀ digits, fixedOrUndefined rt a digits = "undefined" := by
    intro digits
    cases a <;> simp [JSOpt.nullish] at ha <;> rfl
  refine ⟨⟨?_, ?_, ?_⟩, ⟨?_, ?_, ?_⟩, ⟨?_, ?_, ?_, ?_, ?_⟩, h4, ?_⟩
  · simp only [newEntry, h1]
  · simp only [newEntry, h1]
  · simp only [newEntry, h1]
  · simp only [costBreakdown, priceOrDefault, h2]
  · simp only [hourlyCost, priceOrDefault, h2]
  · simp only [energyIntensity, h2]
  · simp [cardValue, liveCards, List.lookup, h2]
  · simp [cardValue, liveCards, List.lookup, yesNo, h3]
  · simp [cardValue, liveCards, List.lookup, yesNo, h3]
  · simp [cardValue, liveCards, List.lookup, yesNo, h3]
  · simp [cardValue, liveCards, List.lookup, h2]
  · simp [cardValue, liveCards, List.lookup, h4]

/-- C13, witness: the sample snapshot with the field `undefined`. -/
theorem absent_field_defaults_witness :
    (JSOpt.undefined : JSOpt ℚ).nullish = true ∧
      hourlyCost sampleRuntime { sampleSnapshot with Energy_Price_USD_kWh := .undefined }
          samplePrediction
        = hourlyCost sampleRuntime { sampleSnapshot with Energy_Price_USD_kWh := .val 0 }
          samplePrediction ∧
      cardValue sampleRuntime { sampleSnapshot with Indoor_Temp_C := .undefined } "Indoor Temp"
        = some "undefined°C" :=
  ⟨rfl,
    (absent_field_defaults sampleRuntime sampleSnapshot samplePrediction "10:30 AM"
      .undefined rfl).2.1.2.1,
    (absent_field_defaults sampleRuntime sampleSnapshot samplePrediction "10:30 AM"
      .undefined rfl).2.2.2.2⟩

/-- C13, counterexample: with the indoor temperature absent the Indoor Temp card
reads `undefined°C`, and `0.0°C` with the field set to 0; with the device usage
factor absent the product with 100 is `NaN` and the card reads `NaN%`, and `0%`
with the field set to 0. -/
theorem absent_field_card_differs :
    cardValue sampleRuntime { sampleSnapshot with Indoor_Temp_C := .undefined } "Indoor Temp"
        = some "undefined°C" ∧
      cardValue sampleRuntime { sampleSnapshot with Indoor_Temp_C := .val 0 } "Indoor Temp"
        = some "0.0°C" ∧
      (JSOpt.undefined : JSOpt ℚ).toNumber.mul sampleRuntime (.fin 100) = .nan ∧
      cardValue sampleRuntime { sampleSnapshot with Device_Usage_Factor := .undefined }
          "Device Usage"
        = some "NaN%" ∧
      cardValue sampleRuntime { sampleSnapshot with Device_Usage_Factor := .val 0 }
          "Device Usage"
        = some "0%" := by
  refine ⟨by decide, by decide, by decide, by decide, by decide!⟩

/-- C14, amended: the hourly cost shown is `(Total_Energy_Wh / 1000) × p` rounded to
two decimals, where `p` is the price of the snapshot when that is a non-zero
number, and 0.1 when the price is 0 or absent. -/
theorem hourly_cost_price_fallback (rt : Runtime) (d : SensorSnapshot)
    (p : PredictionResult) :
    (∀ price : ℚ, d.Energy_Price_USD_kWh = .val price → price ≠ 0 →
      hourlyCost rt d p
        = ((p.Total_Energy_Wh.toNumber.div rt (.fin 1000)).mul rt (.fin price)).toFixed rt 2) ∧
    (d.Energy_Price_USD_kWh.truthyNum = false →
      hourlyCost rt d p
        = ((p.Total_Energy_Wh.toNumber.div rt (.fin 1000)).mul rt
            (.fin (rt.roundNumber (1 / 10)))).toFixed rt 2) := by
  constructor
  · intro price h hne
    have hn : price.num ≠ 0 := fun h0 => hne (Rat.zero_of_num_zero h0)
    simp [hourlyCost, priceOrDefault, JSOpt.numOr, h, hn]
  · intro h
    cases hd : d.Energy_Price_USD_kWh with
    | null => simp [hourlyCost, priceOrDefault, JSOpt.numOr, hd]
    | undefined => simp [hourlyCost, priceOrDefault, JSOpt.numOr, hd]
    | val q =>
      rw [hd] at h
      have hq : q.num = 0 := by simpa [JSOpt.truthyNum] using h
      simp [hourlyCost, priceOrDefault, JSOpt.numOr, hd, hq]

/-- C14, witness: a price of 3 per kWh, and a price of 0. -/
theorem hourly_cost_price_fallback_witness :
    ({ sampleSnapshot with Energy_Price_USD_kWh := .val 3 } : SensorSnapshot).Energy_Price_USD_kWh
        = .val 3 ∧
      hourlyCost sampleRuntime { sampleSnapshot with Energy_Price_USD_kWh := .val 3 }
          samplePrediction
        = ((samplePrediction.Total_Energy_Wh.toNumber.div sampleRuntime (.fin 1000)).mul
            sampleRuntime (.fin 3)).toFixed sampleRuntime 2 ∧
      ({ sampleSnapshot with Energy_Price_USD_kWh := .val 0 } :
          SensorSnapshot).Energy_Price_USD_kWh.truthyNum = false ∧
      hourlyCost sampleRuntime { sampleSnapshot with Energy_Price_USD_kWh := .val 0 }
          samplePrediction
        = ((samplePrediction.Total_Energy_Wh.toNumber.div sampleRuntime (.fin 1000)).mul
            sampleRuntime (.fin (sampleRuntime.roundNumber (1 / 10)))).toFixed sampleRuntime 2 :=
  ⟨rfl,
    (hourly_cost_price_fallback sampleRuntime
      { sampleSnapshot with Energy_Price_USD_kWh := .val 3 } samplePrediction).1 3 rfl
      (by decide),
    rfl,
    (hourly_cost_price_fallback sampleRuntime
      { sampleSnapshot with Energy_Price_USD_kWh := .val 0 } samplePrediction).2 rfl⟩

/-- C14, counterexample: with a total of 2000 Wh and a price of 0, the product
`(2000 / 1000) × 0` rounded to two decimals is `0.00`, and the card shows `0.20`. -/
theorem hourly_cost_at_zero_price :
    hourlyCost sampleRuntime { sampleSnapshot with Energy_Price_USD_kWh := .val 0 }
        { samplePrediction with Total_Energy_Wh := .val 2000 } = "0.20" ∧
      (((JSOpt.val (2000 : ℚ)).toNumber.div sampleRuntime (.fin 1000)).mul sampleRuntime
        (.fin 0)).toFixed sampleRuntime 2 = "0.00" := by
  refine ⟨by decide!, by decide!⟩

/-! ## Successful completions and local actions -/

theorem newEntry_mem_historyUpdater (cmp : String → String → Int) (prev : List HistoricalEntry)
    (t : String) (d : SensorSnapshot) : newEntry t d ∈ historyUpdater cmp t d prev :=
  (historyUpdater_perm cmp t d prev).symm.subset (by simp)

/-- C15: after a successful fetch whose response carries the payload `data`, the
live snapshot is `data` and the selected timestamp is `data.timestamp`, for
every prior state and both values of `useCurrentTime`. -/
theorem fetch_success_stores_snapshot (rt : Runtime) (s : State) (useCurrentTime : Bool)
    (data : SensorSnapshot) :
    (fetchSensorData rt s useCurrentTime (.resolved ⟨true, .val data⟩)).sensorData
        = .val data ∧
      (fetchSensorData rt s useCurrentTime (.resolved ⟨true, .val data⟩)).selectedTimestamp
        = data.timestamp :=
  ⟨rfl, rfl⟩

theorem fetch_success_history (rt : Runtime) (s : State) (useCurrentTime : Bool)
    (data : SensorSnapshot) :
    (fetchSensorData rt s useCurrentTime (.resolved ⟨true, .val data⟩)).historicalData
      = historyUpdater rt.localeCompare (timeLabel rt s.currentTime data) data
          s.historicalData :=
  rfl

/-- C16: after a successful fetch whose response carries the payload `data`, the
history buffer contains an entry whose temp, humidity and occupancy are the
three fields of `data` (0 for a field that is absent, `null` or `undefined`),
whose timestamp is `data.timestamp`, and whose label is rendered from
`data.timestamp` when it is present, and from the clock only when it is absent
(`null`, `undefined` or empty: the values the code tests as falsy). -/
theorem fetch_success_records_entry (rt : Runtime) (s : State) (useCurrentTime : Bool)
    (data : SensorSnapshot) :
    ∃ e ∈ (fetchSensorData rt s useCurrentTime (.resolved ⟨true, .val data⟩)).historicalData,
      ((∀ q, data.Indoor_Temp_C = .val q → e.temp = q) ∧
        (data.Indoor_Temp_C.nullish = true → e.temp = 0)) ∧
      ((∀ q, data.Indoor_Humidity_Pct = .val q → e.humidity = q) ∧
        (data.Indoor_Humidity_Pct.nullish = true → e.humidity = 0)) ∧
      ((∀ q, data.Total_Occupancy_Count = .val q → e.occupancy = q) ∧
        (data.Total_Occupancy_Count.nullish = true → e.occupancy = 0)) ∧
      e.timestamp = data.timestamp ∧
      (∀ ts, data.timestamp = .val ts → ts ≠ "" →
        e.time = rt.toLocaleTimeString (rt.parseDate ts)) ∧
      (data.timestamp.truthyStr = false → e.time = rt.toLocaleTimeString s.currentTime) := by
  have key : ∀ x : JSOpt ℚ, (∀ q, x = .val q → x.orDefault 0 = q) ∧
      (x.nullish = true → x.orDefault 0 = 0) := by
    intro x
    cases x <;> simp [JSOpt.orDefault, JSOpt.nullish]
  refine ⟨newEntry (timeLabel rt s.currentTime data) data, ?_, key _, key _, key _, rfl, ?_, ?_⟩
  · rw [fetch_success_history]
    exact (newEntry_mem_historyUpdater rt.localeCompare s.historicalData _ data)
  · intro ts h hne
    simp [newEntry, timeLabel, h, hne]
  · intro h
    cases hd : data.timestamp with
    | null => simp [newEntry, timeLabel, hd]
    | undefined => simp [newEntry, timeLabel, hd]
    | val ts =>
      rw [hd] at h
      have : ts = "" := by simpa [JSOpt.truthyStr] using h
      simp [newEntry, timeLabel, hd, this]

/-- C16, witness: the first fetch of the session, echoing the wire timestamp. -/
theorem fetch_success_records_entry_witness :
    ∃ e ∈ (fetchSensorData sampleRuntime (State.initial sampleNow) true
          (.resolved ⟨true, .val sampleSnapshot⟩)).historicalData,
      e.temp = 21 ∧ e.humidity = 40 ∧ e.occupancy = 12 ∧
        e.timestamp = .val "01/15/2024, 10:30:00 AM" ∧ e.time = "10:30 AM" := by
  obtain ⟨e, he, ht, hh, ho, hts, hl, -⟩ :=
    fetch_success_records_entry sampleRuntime (State.initial sampleNow) true sampleSnapshot
  refine ⟨e, he, ht.1 21 rfl, hh.1 40 rfl, ho.1 12 rfl, hts, ?_⟩
  rw [hl "01/15/2024, 10:30:00 AM" rfl (by decide)]
  decide

/-- C17: in a state with no live snapshot, predict and optimize issue no request
and return the state as it was, busy flag included, whatever the outcome. -/
theorem no_snapshot_no_call (rt : Runtime) (s : State)
    (hs : s.sensorData.truthyObj = false) (po : Outcome PredictResponse)
    (oo : Outcome OptimizeResponse) :
    issuedRequest rt s .predictEnergy = none ∧ predictEnergy s po = s ∧
      issuedRequest rt s .runOptimization = none ∧ runOptimization s oo = s := by
  refine ⟨?_, by simp [predictEnergy, hs], ?_, by simp [runOptimization, hs]⟩
  · cases hd : s.sensorData <;> simp [hd, JSOpt.truthyObj] at hs <;>
      simp [issuedRequest, predictRequest, hd]
  · cases hd : s.sensorData <;> simp [hd, JSOpt.truthyObj] at hs <;>
      simp [issuedRequest, optimizeRequest, hd]

/-- C17, witness: the initial state, where the snapshot is `null`. -/
theorem no_snapshot_no_call_witness :
    (State.initial sampleNow).sensorData.truthyObj = false ∧
      issuedRequest sampleRuntime (State.initial sampleNow) .predictEnergy = none ∧
      predictEnergy (State.initial sampleNow) (.resolved ⟨true, .val samplePrediction⟩)
        = State.initial sampleNow ∧
      issuedRequest sampleRuntime (State.initial sampleNow) .runOptimization = none ∧
      runOptimization (State.initial sampleNow) .threw = State.initial sampleNow :=
  ⟨rfl, no_snapshot_no_call sampleRuntime (State.initial sampleNow) rfl _ _⟩

/-- C18: after a successful optimize response whose scenario list is non-empty,
the stored list is the response list in the same order and the selected
scenario is its first element. -/
theorem optimize_success_selects_first (s : State) (hs : s.sensorData.truthyObj = true)
    (r : OptimizeResponse) (hr : r.success = true) (x : OptimizationScenario)
    (xs : List OptimizationScenario) (hx : r.scenarios = .val (x :: xs)) :
    (runOptimization s (.resolved r)).scenarios = .val (x :: xs) ∧
      (runOptimization s (.resolved r)).selectedScenario = .val x := by
  simp [runOptimization, applyOptimization, hs, hr, hx, firstElem]

/-- C18, witness: a response with three plans in the sample state. -/
theorem optimize_success_selects_first_witness :
    liveState.sensorData.truthyObj = true ∧
      (runOptimization liveState
          (.resolved ⟨true, .val [samplePlan "A" 9, samplePlan "B" 7, samplePlan "C" 3],
            .undefined⟩)).scenarios
        = .val [samplePlan "A" 9, samplePlan "B" 7, samplePlan "C" 3] ∧
      (runOptimization liveState
          (.resolved ⟨true, .val [samplePlan "A" 9, samplePlan "B" 7, samplePlan "C" 3],
            .undefined⟩)).selectedScenario
        = .val (samplePlan "A" 9) :=
  ⟨rfl, optimize_success_selects_first liveState rfl _ rfl _ _ rfl⟩

/-- C19: `selectScenario` sets the selected scenario to its argument, issues no
request and leaves every other cell unchanged. -/
theorem select_scenario_is_local (rt : Runtime) (s : State) (x : OptimizationScenario) :
    (selectScenario s x).selectedScenario = .val x ∧
      issuedRequest rt s (.selectScenario x) = none ∧
      (selectScenario s x).scenarios = s.scenarios ∧
      (selectScenario s x).sensorData = s.sensorData ∧
      (selectScenario s x).predictions = s.predictions ∧
      (selectScenario s x).simulationResult = s.simulationResult ∧
      (selectScenario s x).comparisonData = s.comparisonData ∧
      (selectScenario s x).optimizationComparison = s.optimizationComparison ∧
      (selectScenario s x).historicalData = s.historicalData ∧
      (selectScenario s x).selectedTimestamp = s.selectedTimestamp ∧
      (selectScenario s x).selectedSimulationScenario = s.selectedSimulationScenario ∧
      (selectScenario s x).loading = s.loading ∧
      (selectScenario s x).activeTab = s.activeTab ∧
      (selectScenario s x).currentTime = s.currentTime :=
  ⟨rfl, rfl, rfl, rfl, rfl, rfl, rfl, rfl, rfl, rfl, rfl, rfl, rfl, rfl⟩

/-- C20: after a successful optimize response that carries a scenario list, the
optimization comparison is the comparison payload of the response when one is
present, and its prior value when the response carries none (`undefined` or
`null`). -/
theorem optimize_success_comparison (s : State) (hs : s.sensorData.truthyObj = true)
    (r : OptimizeResponse) (hr : r.success = true) (xs : List OptimizationScenario)
    (hx : r.scenarios = .val xs) :
    (∀ c, r.comparison = .val c →
      (runOptimization s (.resolved r)).optimizationComparison = .val c) ∧
    (r.comparison.nullish = true →
      (runOptimization s (.resolved r)).optimizationComparison = s.optimizationComparison) := by
  constructor
  · intro c hc
    simp only [runOptimization, hs, if_true]
    simp [applyOptimization, hr, hx, hc, JSOpt.truthyObj]
  · intro hc
    simp only [runOptimization, hs, if_true]
    cases hcc : r.comparison <;> simp [hcc, JSOpt.nullish] at hc <;>
      simp [applyOptimization, hr, hx, hcc, JSOpt.truthyObj]

/-- C20, witness: a response with a comparison, and one without, in the sample state. -/
theorem optimize_success_comparison_witness :
    liveState.sensorData.truthyObj = true ∧
      (runOptimization liveState
          (.resolved ⟨true, .val [samplePlan "A" 9],
            .val ⟨[⟨"HVAC", 1200, 1000⟩]⟩⟩)).optimizationComparison
        = .val ⟨[⟨"HVAC", 1200, 1000⟩]⟩ ∧
      (runOptimization liveState
          (.resolved ⟨true, .val [samplePlan "A" 9], .undefined⟩)).optimizationComparison
        = liveState.optimizationComparison :=
  ⟨rfl,
    (optimize_success_comparison liveState rfl
      ⟨true, .val [samplePlan "A" 9], .val ⟨[⟨"HVAC", 1200, 1000⟩]⟩⟩ rfl _ rfl).1 _ rfl,
    (optimize_success_comparison liveState rfl
      ⟨true, .val [samplePlan "A" 9], .undefined⟩ rfl _ rfl).2 rfl⟩

/-! ## Calls and completions -/

theorem fetchSensorData_eq_complete (rt : Runtime) (s : State) (useCurrentTime : Bool)
    (outcome : Outcome SensorResponse) :
    fetchSensorData rt s useCurrentTime outcome
      = completeFetch rt s.currentTime (beginRequest s) outcome := by
  cases outcome with
  | threw => rfl
  | resolved r =>
    cases hr : r.success with
    | false => simp [fetchSensorData, completeFetch, beginRequest, hr]
    | true =>
      cases hd : r.data <;>
        simp [fetchSensorData, completeFetch, beginRequest, applySensorData, hr, hd]

theorem predictEnergy_eq_complete (s : State) (outcome : Outcome PredictResponse)
    (hs : s.sensorData.truthyObj = true) :
    predictEnergy s outcome = completePredict (beginRequest s) outcome := by
  simp only [predictEnergy, hs, if_true]
  cases outcome <;> rfl

theorem runOptimization_eq_complete (s : State) (outcome : Outcome OptimizeResponse)
    (hs : s.sensorData.truthyObj = true) :
    runOptimization s outcome = completeOptimization (beginRequest s) outcome := by
  simp only [runOptimization, hs, if_true]
  cases outcome <;> rfl

theorem runSimulation_eq_complete (s : State) (scenarioKey : String)
    (outcome : Outcome SimulateResponse) :
    runSimulation s scenarioKey outcome
      = completeSimulation (beginSimulation s scenarioKey) outcome := by
  cases outcome <;> rfl

theorem compareScenarios_eq_complete (s : State) (scenarioKeys : List String)
    (outcome : Outcome ComparisonResponse) :
    compareScenarios s scenarioKeys outcome = completeComparison (beginRequest s) outcome := by
  cases outcome <;> rfl

theorem run_append (rt : Runtime) (s : State) (events : List Event) (e : Event) :
    run rt s (events ++ [e]) = step rt (run rt s events) e := by
  simp [run, List.foldl_append]

theorem run_cons (rt : Runtime) (s : State) (events : List Event) (e : Event) :
    run rt s (e :: events) = run rt (step rt s e) events := rfl

theorem invariant_along (rt : Runtime) (ok : State → Event → Bool) (inv : State → Prop)
    (hstep : ∀ s e, inv s → ok s e = true → inv (step rt s e)) (s : State) (hs : inv s)
    (events : List Event) (hok : allowedAlong rt ok s events = true) :
    inv (run rt s events) := by
  induction events generalizing s with
  | nil => exact hs
  | cons e events ih =>
    simp only [allowedAlong, Bool.and_eq_true] at hok
    rw [run_cons]
    exact ih (step rt s e) (hstep s e hs hok.1) hok.2

/-! ## Frame and invariants of the event loop -/

theorem step_simulationResult (rt : Runtime) (s : State) (e : Event) :
    (step rt s e).simulationResult = (storedSimulation e).getD s.simulationResult := by
  cases e with
  | tick now => rfl
  | pickTimestamp value =>
    simp only [step, pickTimestamp, storedSimulation]
    split <;> rfl
  | setActiveTab tab => rfl
  | selectScenario x => rfl
  | fetchCalled => rfl
  | fetchCompleted captured outcome =>
    cases outcome with
    | threw => rfl
    | resolved r =>
      cases hr : r.success with
      | false => simp [step, completeFetch, storedSimulation, hr]
      | true => cases hd : r.data <;> simp [step, completeFetch, storedSimulation, hr, hd]
  | predictCalled =>
    simp only [step, storedSimulation]
    split <;> rfl
  | predictCompleted outcome =>
    cases outcome with
    | threw => rfl
    | resolved r => cases hr : r.success <;> simp [step, completePredict, storedSimulation, hr]
  | optimizeCalled =>
    simp only [step, storedSimulation]
    split <;> rfl
  | optimizeCompleted outcome =>
    cases outcome with
    | threw => rfl
    | resolved r =>
      cases hr : r.success with
      | false => simp [step, completeOptimization, storedSimulation, hr]
      | true =>
        cases hx : r.scenarios <;>
          simp [step, completeOptimization, applyOptimization, storedSimulation, hr, hx]
  | simulateCalled scenarioKey => rfl
  | simulateCompleted outcome =>
    cases outcome with
    | threw => rfl
    | resolved r =>
      cases hr : r.success <;> simp [step, completeSimulation, storedSimulation, hr]
  | compareCalled => rfl
  | compareCompleted outcome =>
    cases outcome with
    | threw => rfl
    | resolved r =>
      cases hr : r.success <;> simp [step, completeComparison, storedSimulation, hr]

theorem run_simulationResult (rt : Runtime) (s : State) (events : List Event) :
    (run rt s events).simulationResult
      = ((events.filterMap storedSimulation).getLast?).getD s.simulationResult := by
  induction events using List.reverseRecOn with
  | nil => rfl
  | append_singleton events e ih =>
    rw [run_append, step_simulationResult, ih, List.filterMap_append]
    cases he : storedSimulation e with
    | none => simp [he]
    | some d => simp [he]

/-- C23: after any sequence of events, the stored simulation result is the payload
of the last successful simulate completion of the sequence, in the order in
which the completions were processed (and the prior result when there is
none); two sequences with the same successful completions in the same order
leave the same result, wherever the calls stand in them. -/
theorem simulation_last_completion_wins (rt : Runtime) (s : State)
    (events other : List Event)
    (hsame : other.filterMap storedSimulation = events.filterMap storedSimulation) :
    (run rt s events).simulationResult
        = ((events.filterMap storedSimulation).getLast?).getD s.simulationResult ∧
      (run rt s other).simulationResult = (run rt s events).simulationResult := by
  refine ⟨run_simulationResult rt s events, ?_⟩
  rw [run_simulationResult, run_simulationResult, hsame]

/-- C23, witness: end-to-end scenario C, and the same completions after the calls
in the other order; the response of heatwave, processed last, is stored. -/
theorem simulation_last_completion_wins_witness :
    swappedCalls.filterMap storedSimulation = reorderedSimulations.filterMap storedSimulation ∧
      ((run sampleRuntime liveState reorderedSimulations).simulationResult
          = ((reorderedSimulations.filterMap storedSimulation).getLast?).getD
              liveState.simulationResult ∧
        (run sampleRuntime liveState swappedCalls).simulationResult
          = (run sampleRuntime liveState reorderedSimulations).simulationResult) ∧
      (run sampleRuntime liveState reorderedSimulations).simulationResult
        = .val (sampleSimulation "heatwave") :=
  ⟨by decide,
    simulation_last_completion_wins sampleRuntime liveState reorderedSimulations swappedCalls
      (by decide),
    by decide⟩

theorem step_selectedSimulationScenario (rt : Runtime) (s : State) (e : Event)
    (he : notSimulateCall s e = true) :
    (step rt s e).selectedSimulationScenario = s.selectedSimulationScenario := by
  cases e with
  | tick now => rfl
  | pickTimestamp value =>
    simp only [step, pickTimestamp]
    split <;> rfl
  | setActiveTab tab => rfl
  | selectScenario x => rfl
  | fetchCalled => rfl
  | fetchCompleted captured outcome =>
    cases outcome with
    | threw => rfl
    | resolved r =>
      cases hr : r.success with
      | false => simp [step, completeFetch, hr]
      | true => cases hd : r.data <;> simp [step, completeFetch, hr, hd]
  | predictCalled =>
    simp only [step]
    split <;> rfl
  | predictCompleted outcome =>
    cases outcome with
    | threw => rfl
    | resolved r => cases hr : r.success <;> simp [step, completePredict, hr]
  | optimizeCalled =>
    simp only [step]
    split <;> rfl
  | optimizeCompleted outcome =>
    cases outcome with
    | threw => rfl
    | resolved r =>
      cases hr : r.success with
      | false => simp [step, completeOptimization, hr]
      | true =>
        cases hx : r.scenarios <;> simp [step, completeOptimization, applyOptimization, hr, hx]
  | simulateCalled scenarioKey => simp [notSimulateCall] at he
  | simulateCompleted outcome =>
    cases outcome with
    | threw => rfl
    | resolved r => cases hr : r.success <;> simp [step, completeSimulation, hr]
  | compareCalled => rfl
  | compareCompleted outcome =>
    cases outcome with
    | threw => rfl
    | resolved r => cases hr : r.success <;> simp [step, completeComparison, hr]

theorem step_activeTab (rt : Runtime) (s : State) (e : Event) :
    (step rt s e).activeTab
      = (match e with
        | .setActiveTab tab => tab
        | _ => s.activeTab) := by
  cases e with
  | tick now => rfl
  | pickTimestamp value =>
    simp only [step, pickTimestamp]
    split <;> rfl
  | setActiveTab tab => rfl
  | selectScenario x => rfl
  | fetchCalled => rfl
  | fetchCompleted captured outcome =>
    cases outcome with
    | threw => rfl
    | resolved r =>
      cases hr : r.success with
      | false => simp [step, completeFetch, hr]
      | true => cases hd : r.data <;> simp [step, completeFetch, hr, hd]
  | predictCalled =>
    simp only [step]
    split <;> rfl
  | predictCompleted outcome =>
    cases outcome with
    | threw => rfl
    | resolved r => cases hr : r.success <;> simp [step, completePredict, hr]
  | optimizeCalled =>
    simp only [step]
    split <;> rfl
  | optimizeCompleted outcome =>
    cases outcome with
    | threw => rfl
    | resolved r =>
      cases hr : r.success with
      | false => simp [step, completeOptimization, hr]
      | true =>
        cases hx : r.scenarios <;> simp [step, completeOptimization, applyOptimization, hr, hx]
  | simulateCalled scenarioKey => rfl
  | simulateCompleted outcome =>
    cases outcome with
    | threw => rfl
    | resolved r => cases hr : r.success <;> simp [step, completeSimulation, hr]
  | compareCalled => rfl
  | compareCompleted outcome =>
    cases outcome with
    | threw => rfl
    | resolved r => cases hr : r.success <;> simp [step, completeComparison, hr]

theorem step_scenarios_frame (rt : Runtime) (s : State) (e : Event) :
    (∃ outcome, e = .optimizeCompleted outcome) ∨ (∃ x, e = .selectScenario x) ∨
      ((step rt s e).scenarios = s.scenarios ∧
        (step rt s e).selectedScenario = s.selectedScenario) := by
  cases e with
  | tick now => exact .inr (.inr ⟨rfl, rfl⟩)
  | pickTimestamp value =>
    refine .inr (.inr ?_)
    simp only [step, pickTimestamp]
    split <;> exact ⟨rfl, rfl⟩
  | setActiveTab tab => exact .inr (.inr ⟨rfl, rfl⟩)
  | selectScenario x => exact .inr (.inl ⟨x, rfl⟩)
  | fetchCalled => exact .inr (.inr ⟨rfl, rfl⟩)
  | fetchCompleted captured outcome =>
    refine .inr (.inr ?_)
    cases outcome with
    | threw => exact ⟨rfl, rfl⟩
    | resolved r =>
      cases hr : r.success with
      | false => simp [step, completeFetch, hr]
      | true => cases hd : r.data <;> simp [step, completeFetch, hr, hd]
  | predictCalled =>
    refine .inr (.inr ?_)
    simp only [step]
    split <;> exact ⟨rfl, rfl⟩
  | predictCompleted outcome =>
    refine .inr (.inr ?_)
    cases outcome with
    | threw => exact ⟨rfl, rfl⟩
    | resolved r => cases hr : r.success <;> simp [step, completePredict, hr]
  | optimizeCalled =>
    refine .inr (.inr ?_)
    simp only [step]
    split <;> exact ⟨rfl, rfl⟩
  | optimizeCompleted outcome => exact .inl ⟨outcome, rfl⟩
  | simulateCalled scenarioKey => exact .inr (.inr ⟨rfl, rfl⟩)
  | simulateCompleted outcome =>
    refine .inr (.inr ?_)
    cases outcome with
    | threw => exact ⟨rfl, rfl⟩
    | resolved r => cases hr : r.success <;> simp [step, completeSimulation, hr]
  | compareCalled => exact .inr (.inr ⟨rfl, rfl⟩)
  | compareCompleted outcome =>
    refine .inr (.inr ?_)
    cases outcome with
    | threw => exact ⟨rfl, rfl⟩
    | resolved r => cases hr : r.success <;> simp [step, completeComparison, hr]

theorem step_scenario_invariant (rt : Runtime) (s : State) (e : Event)
    (hinv : s.selectedScenario.nullish = true ∨
      ∃ x, s.selectedScenario = .val x ∧ x ∈ displayedScenarios s)
    (he : scenarioEventsWellFormed s e = true) :
    (step rt s e).selectedScenario.nullish = true ∨
      ∃ x, (step rt s e).selectedScenario = .val x ∧ x ∈ displayedScenarios (step rt s e) := by
  rcases step_scenarios_frame rt s e with ⟨outcome, rfl⟩ | ⟨x, rfl⟩ | ⟨h1, h2⟩
  · cases outcome with
    | threw => exact hinv
    | resolved r =>
      cases hr : r.success with
      | false => simpa [step, completeOptimization, hr, displayedScenarios] using hinv
      | true =>
        simp only [scenarioEventsWellFormed, hr, if_true] at he
        cases hx : r.scenarios with
        | null => simp [hx, JSOpt.truthyObj] at he
        | undefined => simp [hx, JSOpt.truthyObj] at he
        | val xs =>
          cases xs with
          | nil =>
            left
            simp [step, completeOptimization, applyOptimization, hr, hx, firstElem,
              JSOpt.nullish]
          | cons y ys =>
            right
            exact ⟨y, by
              simp [step, completeOptimization, applyOptimization, hr, hx, firstElem,
                displayedScenarios]⟩
  · right
    simp only [scenarioEventsWellFormed, decide_eq_true_eq] at he
    exact ⟨x, rfl, he⟩
  · rcases hinv with h | ⟨x, hx, hm⟩
    · left; rw [h2]; exact h
    · right
      exact ⟨x, by rw [h2]; exact hx, by simpa [displayedScenarios, h1] using hm⟩

/-- C21: in a state with a live snapshot the optimize request is issued and its
`simulationScenario` field is the active simulation scenario of the state; in
a state reached from the initial state by events none of which is a call of
`runSimulation`, that field is `null`. -/
theorem optimize_request_scenario (rt : Runtime) (s : State) (d : SensorSnapshot)
    (hs : s.sensorData = .val d) (now : Date) (events : List Event)
    (hno : allowedAlong rt notSimulateCall (State.initial now) events = true) :
    (∃ body, optimizeRequest s = some body ∧
      body.simulationScenario = s.selectedSimulationScenario) ∧
    (run rt (State.initial now) events).selectedSimulationScenario = .null ∧
    ∀ body ∈ optimizeRequest (run rt (State.initial now) events),
      body.simulationScenario = .null := by
  have hnull : (run rt (State.initial now) events).selectedSimulationScenario = .null :=
    invariant_along rt notSimulateCall (fun t => t.selectedSimulationScenario = .null)
      (fun t e ht he => (step_selectedSimulationScenario rt t e he).trans ht)
      (State.initial now) rfl events hno
  refine ⟨⟨⟨d, s.selectedTimestamp.strOr (formatTimestamp s.currentTime),
    s.selectedSimulationScenario⟩, by simp [optimizeRequest, hs], rfl⟩, hnull, ?_⟩
  intro body hb
  unfold optimizeRequest at hb
  cases hd : (run rt (State.initial now) events).sensorData <;> rw [hd] at hb <;>
    simp at hb
  rw [← hb]
  exact hnull

/-- C21, witness: the sample state, where `baseline` is active, and the state after
the first fetch of a session. -/
theorem optimize_request_scenario_witness :
    liveState.sensorData = .val sampleSnapshot ∧
      allowedAlong sampleRuntime notSimulateCall (State.initial sampleNow)
        [.fetchCalled, .fetchCompleted sampleNow (.resolved ⟨true, .val sampleSnapshot⟩)]
        = true ∧
      ((∃ body, optimizeRequest liveState = some body ∧
          body.simulationScenario = liveState.selectedSimulationScenario) ∧
        (run sampleRuntime (State.initial sampleNow)
          [.fetchCalled, .fetchCompleted sampleNow (.resolved ⟨true, .val sampleSnapshot⟩)]
          ).selectedSimulationScenario = .null ∧
        ∀ body ∈ optimizeRequest (run sampleRuntime (State.initial sampleNow)
            [.fetchCalled, .fetchCompleted sampleNow (.resolved ⟨true, .val sampleSnapshot⟩)]),
          body.simulationScenario = .null) :=
  ⟨rfl, by decide,
    optimize_request_scenario sampleRuntime liveState sampleSnapshot rfl sampleNow _
      (by decide)⟩

/-- C22: a successful compare stores the response as the multi-scenario comparison
view and leaves the comparison of the optimization as it was; an optimize
call leaves the multi-scenario comparison view as it was, whatever its outcome. -/
theorem comparison_cells_are_separate (s : State) (scenarioKeys : List String)
    (r : ComparisonResponse) (hr : r.success = true) (outcome : Outcome OptimizeResponse) :
    (compareScenarios s scenarioKeys (.resolved r)).comparisonData = .val r ∧
      (compareScenarios s scenarioKeys (.resolved r)).optimizationComparison
        = s.optimizationComparison ∧
      (runOptimization s outcome).comparisonData = s.comparisonData := by
  refine ⟨by simp [compareScenarios, hr], by simp [compareScenarios, hr], ?_⟩
  cases hs : s.sensorData.truthyObj with
  | false => simp [runOptimization, hs]
  | true =>
    simp only [runOptimization, hs, if_true]
    cases outcome with
    | threw => rfl
    | resolved ro =>
      cases hro : ro.success with
      | false => simp [hro]
      | true => cases hx : ro.scenarios <;> simp [applyOptimization, hro, hx]

/-- C22, witness: a comparison of two scenarios, and an optimization with a
comparison payload, in the sample state. -/
theorem comparison_cells_are_separate_witness :
    (⟨true, [("baseline", "1700"), ("heatwave", "2000")]⟩ : ComparisonResponse).success = true ∧
      (compareScenarios liveState ["baseline", "heatwave"]
          (.resolved ⟨true, [("baseline", "1700"), ("heatwave", "2000")]⟩)).comparisonData
        = .val ⟨true, [("baseline", "1700"), ("heatwave", "2000")]⟩ ∧
      (compareScenarios liveState ["baseline", "heatwave"]
          (.resolved ⟨true, [("baseline", "1700"), ("heatwave", "2000")]⟩)
        ).optimizationComparison = liveState.optimizationComparison ∧
      (runOptimization liveState
          (.resolved ⟨true, .val [samplePlan "A" 9], .val ⟨[⟨"HVAC", 1200, 1000⟩]⟩⟩)
        ).comparisonData = liveState.comparisonData :=
  ⟨rfl, comparison_cells_are_separate liveState _ _ rfl _⟩

/-- C27: the active tab is `live` initially; selecting a tab sets the active tab to
it in every state, whatever the other cells hold, and leaves every other cell
unchanged; and after every sequence of events whose tab selections are among
the five tab buttons, the active tab is one of the five. -/
theorem active_tab_is_one_of_five (rt : Runtime) (now : Date) (s : State) (tab : String)
    (events : List Event)
    (hev : allowedAlong rt tabOffered (State.initial now) events = true) :
    (State.initial now).activeTab = "live" ∧
      ((setActiveTab s tab).activeTab = tab ∧
        (setActiveTab s tab).currentTime = s.currentTime ∧
        (setActiveTab s tab).sensorData = s.sensorData ∧
        (setActiveTab s tab).predictions = s.predictions ∧
        (setActiveTab s tab).loading = s.loading ∧
        (setActiveTab s tab).historicalData = s.historicalData ∧
        (setActiveTab s tab).scenarios = s.scenarios ∧
        (setActiveTab s tab).selectedScenario = s.selectedScenario ∧
        (setActiveTab s tab).simulationResult = s.simulationResult ∧
        (setActiveTab s tab).selectedTimestamp = s.selectedTimestamp ∧
        (setActiveTab s tab).comparisonData = s.comparisonData ∧
        (setActiveTab s tab).selectedSimulationScenario = s.selectedSimulationScenario ∧
        (setActiveTab s tab).optimizationComparison = s.optimizationComparison) ∧
      (run rt (State.initial now) events).activeTab ∈ tabNames := by
  refine ⟨rfl, ⟨rfl, rfl, rfl, rfl, rfl, rfl, rfl, rfl, rfl, rfl, rfl, rfl, rfl⟩, ?_⟩
  refine invariant_along rt tabOffered (fun t => t.activeTab ∈ tabNames) ?_
    (State.initial now) (by simp [State.initial, tabNames]) events hev
  intro t e ht he
  rw [step_activeTab]
  cases e <;> first | exact ht | (simpa [tabOffered] using he)

/-- C27, witness: the analytics tab is entered in the initial state, with no
snapshot, then a fetch completes and the predictions tab is entered. -/
theorem active_tab_is_one_of_five_witness :
    "analytics" ∈ tabNames ∧
      allowedAlong sampleRuntime tabOffered (State.initial sampleNow)
        [.setActiveTab "analytics", .fetchCalled,
          .fetchCompleted sampleNow (.resolved ⟨true, .val sampleSnapshot⟩),
          .setActiveTab "predictions"] = true ∧
      (setActiveTab (State.initial sampleNow) "analytics").activeTab = "analytics" ∧
      (run sampleRuntime (State.initial sampleNow)
        [.setActiveTab "analytics", .fetchCalled,
          .fetchCompleted sampleNow (.resolved ⟨true, .val sampleSnapshot⟩),
          .setActiveTab "predictions"]).activeTab ∈ tabNames :=
  ⟨by decide, by decide,
    (active_tab_is_one_of_five sampleRuntime sampleNow (State.initial sampleNow) "analytics"
      [] rfl).2.1.1,
    (active_tab_is_one_of_five sampleRuntime sampleNow (State.initial sampleNow) "analytics"
      [.setActiveTab "analytics", .fetchCalled,
        .fetchCompleted sampleNow (.resolved ⟨true, .val sampleSnapshot⟩),
        .setActiveTab "predictions"] (by decide)).2.2⟩

/-- C30: after every sequence of events from the initial state in which each
successful optimize response carries a scenario list and each selection is a
click on a displayed plan, the selected scenario is `null` or `undefined`, or
it is an element of the stored scenario list. -/
theorem selected_scenario_in_list (rt : Runtime) (now : Date) (events : List Event)
    (hev : allowedAlong rt scenarioEventsWellFormed (State.initial now) events = true) :
    (run rt (State.initial now) events).selectedScenario = .null ∨
      (run rt (State.initial now) events).selectedScenario = .undefined ∨
      ∃ xs x, (run rt (State.initial now) events).scenarios = .val xs ∧ x ∈ xs ∧
        (run rt (State.initial now) events).selectedScenario = .val x := by
  have h := invariant_along rt scenarioEventsWellFormed
    (fun t => t.selectedScenario.nullish = true ∨
      ∃ x, t.selectedScenario = .val x ∧ x ∈ displayedScenarios t)
    (fun t e ht he => step_scenario_invariant rt t e ht he)
    (State.initial now) (Or.inl rfl) events hev
  rcases h with h | ⟨x, hx, hm⟩
  · cases hsel : (run rt (State.initial now) events).selectedScenario with
    | null => exact .inl rfl
    | undefined => exact .inr (.inl rfl)
    | val y => simp [hsel, JSOpt.nullish] at h
  · right; right
    cases hsc : (run rt (State.initial now) events).scenarios with
    | null => simp [displayedScenarios, hsc] at hm
    | undefined => simp [displayedScenarios, hsc] at hm
    | val xs => exact ⟨xs, x, rfl, by simpa [displayedScenarios, hsc] using hm, hx⟩

/-- C30, witness: end-to-end scenario D, an optimization that returns three plans
followed by a click on the third. -/
theorem selected_scenario_in_list_witness :
    allowedAlong sampleRuntime scenarioEventsWellFormed (State.initial sampleNow)
        scenarioClicks = true ∧
      ((run sampleRuntime (State.initial sampleNow) scenarioClicks).selectedScenario = .null ∨
        (run sampleRuntime (State.initial sampleNow) scenarioClicks).selectedScenario
          = .undefined ∨
        ∃ xs x, (run sampleRuntime (State.initial sampleNow) scenarioClicks).scenarios
            = .val xs ∧ x ∈ xs ∧
          (run sampleRuntime (State.initial sampleNow) scenarioClicks).selectedScenario
            = .val x) ∧
      (run sampleRuntime (State.initial sampleNow) scenarioClicks).selectedScenario
        = .val (samplePlan "C" 3) :=
  ⟨by decide, selected_scenario_in_list sampleRuntime sampleNow scenarioClicks (by decide),
    by decide⟩

/-! ## Rounding to a fixed number of decimals -/

theorem fixedDigits_eq (q : ℚ) (digits : Nat) :
    fixedDigits q digits
      = (if q.num < 0 then "-" ++ decimalPlaces (nearestScaled q digits) digits
        else decimalPlaces (nearestScaled q digits) digits) := rfl

theorem nearestScaled_spec (q : ℚ) (digits : Nat) :
    (nearestScaled q digits : ℚ) ≤ |q| * 10 ^ digits + 1 / 2 ∧
      |q| * 10 ^ digits + 1 / 2 < (nearestScaled q digits : ℚ) + 1 := by
  have hb : (0 : ℚ) < q.den := by exact_mod_cast q.den_pos
  have habs : |q| = (q.num.natAbs : ℚ) / q.den := by
    conv_lhs => rw [← Rat.num_div_den q]
    rw [abs_div, abs_of_pos hb, Nat.cast_natAbs, Int.cast_abs]
  have h1 : 2 * q.den * nearestScaled q digits ≤ 2 * q.num.natAbs * 10 ^ digits + q.den :=
    Nat.mul_div_le _ _
  have h2 : 2 * q.num.natAbs * 10 ^ digits + q.den
      < 2 * q.den * (nearestScaled q digits + 1) := by
    have := Nat.lt_mul_div_succ (2 * q.num.natAbs * 10 ^ digits + q.den)
      (show 0 < 2 * q.den by have := q.den_pos; omega)
    simpa [nearestScaled, Nat.mul_succ] using this
  have h1q : (2 * (q.den : ℚ) * nearestScaled q digits)
      ≤ 2 * q.num.natAbs * 10 ^ digits + q.den := by exact_mod_cast h1
  have h2q : (2 * (q.num.natAbs : ℚ) * 10 ^ digits + q.den)
      < 2 * q.den * (nearestScaled q digits + 1) := by exact_mod_cast h2
  rw [habs]
  constructor
  · rw [div_mul_eq_mul_div, ← sub_le_iff_le_add, le_div_iff₀ hb]
    nlinarith
  · rw [div_mul_eq_mul_div, ← lt_sub_iff_add_lt, div_lt_iff₀ hb]
    nlinarith

theorem natAbs_lt_of_abs_lt (y : ℚ) (bound : Nat) (h : |y| < bound) :
    y.num.natAbs < bound * y.den := by
  have hb : (0 : ℚ) < y.den := by exact_mod_cast y.den_pos
  have habs : |y| = (y.num.natAbs : ℚ) / y.den := by
    conv_lhs => rw [← Rat.num_div_den y]
    rw [abs_div, abs_of_pos hb, Nat.cast_natAbs, Int.cast_abs]
  rw [habs, div_lt_iff₀ hb] at h
  exact_mod_cast h

theorem toFixed_of_small (rt : Runtime) (y : ℚ) (digits : Nat)
    (hy : y.num.natAbs < 10 ^ 21 * y.den) :
    (JSNum.fin y).toFixed rt digits
      = (if y.num < 0 then "-" ++ decimalPlaces (nearestScaled y digits) digits
        else decimalPlaces (nearestScaled y digits) digits) := by
  simp only [JSNum.toFixed, hy, if_true, fixedDigits_eq]

theorem toFixed_two_near_six_fifths (rt : Runtime) (y : ℚ) (hy : |y - 6 / 5| < 1 / 200) :
    (JSNum.fin y).toFixed rt 2 = "1.20" := by
  have hlo : (239 : ℚ) / 200 < y := by have := (abs_lt.1 hy).1; linarith
  have hhi : y < 241 / 200 := by have := (abs_lt.1 hy).2; linarith
  have hpos : 0 < y := by linarith
  have habs : |y| = y := abs_of_pos hpos
  have hnum : ¬ y.num < 0 := not_lt.2 (Rat.num_nonneg.2 hpos.le)
  have hsmall : y.num.natAbs < 10 ^ 21 * y.den := by
    have := natAbs_lt_of_abs_lt y (10 ^ 21) (by rw [habs]; push_cast; linarith)
    simpa using this
  have hn : nearestScaled y 2 = 120 := by
    obtain ⟨h1, h2⟩ := nearestScaled_spec y 2
    rw [habs] at h1 h2
    have ha : (nearestScaled y 2 : ℚ) < 121 := by linarith
    have hb : (119 : ℚ) < nearestScaled y 2 := by linarith
    have ha2 : nearestScaled y 2 < 121 := by exact_mod_cast ha
    have hb2 : 119 < nearestScaled y 2 := by exact_mod_cast hb
    omega
  rw [toFixed_of_small rt y 2 hsmall, if_neg hnum, hn]
  decide

/-- C24: each headline card of a stored prediction shows its watt-hour field
divided by 1000 and rounded to two decimals by `toFixed(2)`, that is, for a
quotient `y` of magnitude below `10 ^ 21`, the decimal notation of the integer
nearest to `|y| * 100` with the point before its last two digits (and a minus
sign when `y` is negative); a field of 1200 is shown as `1.20` on every engine
whose division is accurate to less than 0.005. -/
theorem headline_cards_kwh (rt : Runtime) (p : PredictionResult) :
    (∀ q, p.Energy_HVAC_Wh = .val q →
      (headlineCards rt p).lookup "HVAC Model"
        = some ((JSNum.fin (rt.roundNumber (q / 1000))).toFixed rt 2)) ∧
    (∀ q, p.Energy_Lighting_Wh = .val q →
      (headlineCards rt p).lookup "Lighting Model"
        = some ((JSNum.fin (rt.roundNumber (q / 1000))).toFixed rt 2)) ∧
    (∀ q, p.Energy_Plug_Wh = .val q →
      (headlineCards rt p).lookup "Plug Model"
        = some ((JSNum.fin (rt.roundNumber (q / 1000))).toFixed rt 2)) ∧
    (∀ q, p.Total_Energy_Wh = .val q →
      (headlineCards rt p).lookup "Total Energy (Meta Model)"
        = some ((JSNum.fin (rt.roundNumber (q / 1000))).toFixed rt 2)) ∧
    (∀ y : ℚ, |y| < 10 ^ 21 →
      (JSNum.fin y).toFixed rt 2
          = (if y < 0 then "-" ++ decimalPlaces (nearestScaled y 2) 2
            else decimalPlaces (nearestScaled y 2) 2) ∧
        (nearestScaled y 2 : ℚ) ≤ |y| * 100 + 1 / 2 ∧
        |y| * 100 + 1 / 2 < (nearestScaled y 2 : ℚ) + 1) ∧
    (p.Energy_HVAC_Wh = .val 1200 → |rt.roundNumber (1200 / 1000) - 6 / 5| < 1 / 200 →
      (headlineCards rt p).lookup "HVAC Model" = some "1.20") := by
  have hdiv : ∀ q : ℚ, (JSOpt.val q).toNumber.div rt (.fin 1000)
      = .fin (rt.roundNumber (q / 1000)) := by
    intro q
    simp [JSOpt.toNumber, JSNum.div]
  refine ⟨fun q h => ?_, fun q h => ?_, fun q h => ?_, fun q h => ?_, fun y hy => ⟨?_, ?_⟩,
    fun h hr => ?_⟩
  · simp [headlineCards, List.lookup, h, hdiv]
  · simp [headlineCards, List.lookup, h, hdiv]
  · simp [headlineCards, List.lookup, h, hdiv]
  · simp [headlineCards, List.lookup, h, hdiv]
  · have hs := natAbs_lt_of_abs_lt y (10 ^ 21) (by push_cast; exact hy)
    rw [toFixed_of_small rt y 2 (by simpa using hs)]
    simp only [Rat.num_neg]
  · have := nearestScaled_spec y 2
    norm_num at this ⊢
    exact this
  · have : (headlineCards rt p).lookup "HVAC Model"
        = some ((JSNum.fin (rt.roundNumber (1200 / 1000))).toFixed rt 2) := by
      simp [headlineCards, List.lookup, h, hdiv]
    rw [this, toFixed_two_near_six_fifths rt _ hr]

/-- C24, witness: the prediction of end-to-end scenario A on the sample engine. -/
theorem headline_cards_kwh_witness :
    samplePrediction.Energy_HVAC_Wh = .val 1200 ∧
      |sampleRuntime.roundNumber (1200 / 1000) - 6 / 5| < 1 / 200 ∧
      (headlineCards sampleRuntime samplePrediction).lookup "HVAC Model" = some "1.20" :=
  ⟨rfl, by norm_num [sampleRuntime],
    (headline_cards_kwh sampleRuntime samplePrediction).2.2.2.2.2 rfl
      (by norm_num [sampleRuntime])⟩

/-- C25: for every stored prediction, `energyBreakdown` has exactly four entries,
named HVAC, Lighting, Plug Loads and Other in this order, with the same four
colours whatever the prediction holds, and with the matching watt-hour field
as value, or 0 when that field is `null` or `undefined`. -/
theorem energy_breakdown_shape (p : PredictionResult) :
    (energyBreakdown (.val p)).length = 4 ∧
      (energyBreakdown (.val p)).map (fun e => e.name)
        = ["HVAC", "Lighting", "Plug Loads", "Other"] ∧
      (energyBreakdown (.val p)).map (fun e => e.color)
        = ["#ff0080", "#00ff80", "#00ffff", "#ff00ff"] ∧
      (energyBreakdown (.val p)).map (fun e => e.value)
        = [p.Energy_HVAC_Wh.orDefault 0, p.Energy_Lighting_Wh.orDefault 0,
          p.Energy_Plug_Wh.orDefault 0, p.Energy_Other_Wh.orDefault 0] ∧
      ∀ x : JSOpt ℚ, (∀ q, x = .val q → x.orDefault 0 = q) ∧
        (x.nullish = true → x.orDefault 0 = 0) := by
  refine ⟨rfl, rfl, rfl, rfl, fun x => ?_⟩
  cases x <;> simp [JSOpt.orDefault, JSOpt.nullish]

/-- C25, witness: a prediction that carries the HVAC field alone. -/
theorem energy_breakdown_shape_witness :
    (JSOpt.undefined : JSOpt ℚ).nullish = true ∧
      (energyBreakdown (.val { Energy_HVAC_Wh := .val 1200 })).map (fun e => e.value)
        = [1200, 0, 0, 0] ∧
      (energyBreakdown (.val { Energy_HVAC_Wh := .val 1200 })).length = 4 := by
  have h := energy_breakdown_shape { Energy_HVAC_Wh := .val 1200 }
  refine ⟨rfl, ?_, h.1⟩
  rw [h.2.2.2.1, (h.2.2.2.2 (.val 1200)).1 1200 rfl, (h.2.2.2.2 .undefined).2 rfl]

/-- C26: for a stored prediction whose HVAC, Lighting and Total fields are numbers
and whose Total is not 0, the efficiency ratio shown is
`(Energy_HVAC_Wh + Energy_Lighting_Wh) / Total_Energy_Wh × 100` rounded to one
decimal by `toFixed(1)`: the share of the Total field, in which the Plug and
Other fields take no part. -/
theorem efficiency_ratio_of_total (rt : Runtime) (p : PredictionResult) (h l t : ℚ)
    (hh : p.Energy_HVAC_Wh = .val h) (hl : p.Energy_Lighting_Wh = .val l)
    (ht : p.Total_Energy_Wh = .val t) (ht0 : t ≠ 0) :
    efficiencyRatio rt p
        = (JSNum.fin (rt.roundNumber
            (rt.roundNumber (rt.roundNumber (h + l) / t) * 100))).toFixed rt 1 ∧
      ∀ y : ℚ, |y| < 10 ^ 21 →
        (JSNum.fin y).toFixed rt 1
            = (if y < 0 then "-" ++ decimalPlaces (nearestScaled y 1) 1
              else decimalPlaces (nearestScaled y 1) 1) ∧
          (nearestScaled y 1 : ℚ) ≤ |y| * 10 + 1 / 2 ∧
          |y| * 10 + 1 / 2 < (nearestScaled y 1 : ℚ) + 1 := by
  have ht1 : t.num ≠ 0 := fun h0 => ht0 (Rat.zero_of_num_zero h0)
  refine ⟨by simp [efficiencyRatio, hh, hl, ht, JSOpt.toNumber, JSNum.add, JSNum.div,
    JSNum.mul, ht1], fun y hy => ⟨?_, ?_⟩⟩
  · have hs := natAbs_lt_of_abs_lt y (10 ^ 21) (by push_cast; exact hy)
    rw [toFixed_of_small rt y 1 (by simpa using hs)]
    simp only [Rat.num_neg]
  · have := nearestScaled_spec y 1
    norm_num at this ⊢
    exact this

/-- C26, witness: HVAC 1200 and Lighting 300 against a Total of 2000, which is not
the sum 1700 of the four components: the card shows 75.0, not 88.2. -/
theorem efficiency_ratio_of_total_witness :
    ({ samplePrediction with Total_Energy_Wh := .val 2000 } : PredictionResult).Energy_HVAC_Wh
        = .val 1200 ∧
      ({ samplePrediction with Total_Energy_Wh := .val 2000 } :
          PredictionResult).Energy_Lighting_Wh = .val 300 ∧
      ({ samplePrediction with Total_Energy_Wh := .val 2000 } :
          PredictionResult).Total_Energy_Wh = .val 2000 ∧
      (2000 : ℚ) ≠ 0 ∧
      efficiencyRatio sampleRuntime { samplePrediction with Total_Energy_Wh := .val 2000 }
        = (JSNum.fin (sampleRuntime.roundNumber
            (sampleRuntime.roundNumber (sampleRuntime.roundNumber (1200 + 300) / 2000)
              * 100))).toFixed sampleRuntime 1 ∧
      efficiencyRatio sampleRuntime { samplePrediction with Total_Energy_Wh := .val 2000 }
        = "75.0" :=
  ⟨rfl, rfl, rfl, by norm_num,
    (efficiency_ratio_of_total sampleRuntime
      { samplePrediction with Total_Energy_Wh := .val 2000 } 1200 300 2000 rfl rfl rfl
      (by norm_num)).1,
    by decide!⟩

/-! ## The history step: the specified algorithm, and recording twice -/

theorem sliceFromEnd_append_singleton {α : Type} (xs : List α) (x : α) :
    sliceFromEnd 23 xs ++ [x]
      = (if (xs ++ [x]).length > 24 then sliceFromEnd 24 (xs ++ [x]) else xs ++ [x]) := by
  unfold sliceFromEnd
  rw [List.length_append, List.length_singleton]
  split
  · rename_i h
    rw [List.drop_append_of_le_length (by omega)]
    congr 2
  · rename_i h
    rw [Nat.sub_eq_zero_of_le (by omega), List.drop_zero]

/-- C28: for every buffer and every new entry, the updater of the source returns
the same list as the algorithm of the specification. -/
theorem history_step_refines_spec (cmp : String → String → Int) (timeStr : String)
    (data : SensorSnapshot) (prev : List HistoricalEntry) :
    historyUpdater cmp timeStr data prev
      = specifiedRecord cmp (newEntry timeStr data) prev := by
  simp only [historyUpdater, specifiedRecord]
  rw [sliceFromEnd_append_singleton]
  rfl

theorem orderedInsert_comm_after {α : Type} (r : α → α → Prop) [DecidableRel r] (htotal : ∀ a b, r a b ∨ r b a)
    (htrans : ∀ a b c, r a b → r b c → r a c) (a e : α) (l : List α) :
    List.orderedInsert r a (List.orderedInsert (fun x y => ¬ r y x) e l)
      = List.orderedInsert (fun x y => ¬ r y x) e (List.orderedInsert r a l) := by
  induction l with
  | nil =>
    by_cases hae : r a e <;> simp [List.orderedInsert, hae]
  | cons b l ih =>
    by_cases hbe : r b e <;> by_cases hab : r a b
    · have hae : r a e := htrans a b e hab hbe
      simp [List.orderedInsert, hbe, hab, hae]
    · simp [List.orderedInsert, hbe, hab, ih]
    · by_cases hae : r a e <;> simp [List.orderedInsert, hbe, hab, hae]
    · have hae : ¬ r a e := fun hae =>
        hbe (htrans b a e ((htotal a b).resolve_left hab) hae)
      simp [List.orderedInsert, hbe, hab, hae]

theorem insertionSort_append_singleton {α : Type} (r : α → α → Prop) [DecidableRel r]
    (htotal : ∀ a b, r a b ∨ r b a)
    (htrans : ∀ a b c, r a b → r b c → r a c) (l : List α) (e : α) :
    List.insertionSort r (l ++ [e])
      = List.orderedInsert (fun x y => ¬ r y x) e (List.insertionSort r l) := by
  induction l with
  | nil => simp [List.insertionSort, List.orderedInsert]
  | cons a l ih =>
    rw [List.cons_append, List.insertionSort, ih,
      orderedInsert_comm_after r htotal htrans, List.insertionSort]

theorem filter_orderedInsert_of_fresh {α : Type} (s : α → α → Prop) [DecidableRel s]
    (p : α → Bool)
    (e : α) (he : p e = false) (l : List α) (hl : ∀ x ∈ l, p x = true) :
    (List.orderedInsert s e l).filter p = l := by
  rw [List.orderedInsert_eq_take_drop, List.filter_append, List.filter_cons, he]
  simp only [Bool.false_eq_true, if_false]
  rw [← List.filter_append, List.takeWhile_append_dropWhile, List.filter_eq_self]
  exact hl

theorem historyUpdater_twice (cmp : String → String → Int)
    (htotal : ∀ a b, cmp a b ≤ 0 ∨ cmp b a ≤ 0)
    (htrans : ∀ a b c, cmp a b ≤ 0 → cmp b c ≤ 0 → cmp a c ≤ 0)
    (timeStr : String) (data : SensorSnapshot) (prev : List HistoricalEntry) :
    historyUpdater cmp timeStr data (historyUpdater cmp timeStr data prev)
      = historyUpdater cmp timeStr data prev := by
  have ht : ∀ a b : HistoricalEntry, cmp a.time b.time ≤ 0 ∨ cmp b.time a.time ≤ 0 :=
    fun a b => htotal a.time b.time
  have htr : ∀ a b c : HistoricalEntry, cmp a.time b.time ≤ 0 → cmp b.time c.time ≤ 0 →
      cmp a.time c.time ≤ 0 := fun a b c => htrans a.time b.time c.time
  haveI : IsTotal HistoricalEntry (fun a b => cmp a.time b.time ≤ 0) := ⟨ht⟩
  haveI : IsTrans HistoricalEntry (fun a b => cmp a.time b.time ≤ 0) := ⟨htr⟩
  set kept := sliceFromEnd 23 (prev.filter (fun item => item.time != timeStr)) with hkept
  have hfirst : historyUpdater cmp timeStr data prev
      = List.orderedInsert (fun x y => ¬ cmp y.time x.time ≤ 0) (newEntry timeStr data)
          (List.insertionSort (fun a b => cmp a.time b.time ≤ 0) kept) := by
    simp only [historyUpdater, jsSort, ← hkept]
    exact insertionSort_append_singleton _ ht htr kept _
  have hlabels : ∀ x ∈ List.insertionSort (fun a b => cmp a.time b.time ≤ 0) kept,
      (x.time != timeStr) = true := by
    intro x hx
    have hx1 : x ∈ kept := (List.perm_insertionSort _ kept).subset hx
    exact (List.mem_filter.1 ((sliceFromEnd_sublist 23 _).subset hx1)).2
  have hlen : (List.insertionSort (fun a b => cmp a.time b.time ≤ 0) kept).length ≤ 23 := by
    rw [List.length_insertionSort]
    exact length_sliceFromEnd_le 23 _
  have hfilter : (historyUpdater cmp timeStr data prev).filter
      (fun item => item.time != timeStr)
      = List.insertionSort (fun a b => cmp a.time b.time ≤ 0) kept := by
    rw [hfirst]
    exact filter_orderedInsert_of_fresh _ _ _ (by simp [newEntry]) _ hlabels
  conv_lhs => rw [historyUpdater, hfilter, sliceFromEnd_eq_self 23 _ hlen, jsSort]
  rw [insertionSort_append_singleton _ ht htr,
    List.Sorted.insertionSort_eq (List.sorted_insertionSort _ kept), hfirst]

/-- C29: for every buffer reached from the empty buffer by record steps and every
entry, recording the entry twice in a row leaves the same buffer as
recording it once, for a comparison that is total and transitive. -/
theorem history_record_idempotent (cmp : String → String → Int)
    (htotal : ∀ a b, cmp a b ≤ 0 ∨ cmp b a ≤ 0)
    (htrans : ∀ a b c, cmp a b ≤ 0 → cmp b c ≤ 0 → cmp a c ≤ 0)
    (steps : List (String × SensorSnapshot)) (step : String × SensorSnapshot) :
    recordAll cmp (steps ++ [step, step]) = recordAll cmp (steps ++ [step]) := by
  have h : steps ++ [step, step] = (steps ++ [step]) ++ [step] := by simp
  rw [h, recordAll_append, recordAll_append]
  exact historyUpdater_twice cmp htotal htrans _ _ _

/-- C29, witness: five consecutive minutes, the last one recorded twice. -/
theorem history_record_idempotent_witness :
    (∀ a b, codePointCompare a b ≤ 0 ∨ codePointCompare b a ≤ 0) ∧
      (∀ a b c, codePointCompare a b ≤ 0 → codePointCompare b c ≤ 0 →
        codePointCompare a c ≤ 0) ∧
      recordAll codePointCompare (minuteSteps 600 4 ++ [minuteStep 604, minuteStep 604])
        = recordAll codePointCompare (minuteSteps 600 4 ++ [minuteStep 604]) :=
  ⟨codePointCompare_total, codePointCompare_trans,
    history_record_idempotent codePointCompare codePointCompare_total codePointCompare_trans
      _ _⟩

end DigitalTwin
